import Mathlib

/-!
Shallow embedding of the client-side asynchronous state synchronization core of
the `jezarch` frontend (`src/frontend-rust`): the egui-memory result mailbox,
the per-view fetch triggers and in-flight guards, the element-browser popover's
dependency-fingerprint logic, the notes/tags/elements list views, and the
resolved-signature-path cache.  Each definition is translated from the Rust
source file and line range named in its doc comment.
-/

/-- Lexicographic comparison of character lists, by code point.  Kernel-reducible
stand-in for `str`/`String` ordering used by the Rust `cmp` calls. -/
def charListLt : List Char → List Char → Bool
  | [], [] => false
  | [], _ :: _ => true
  | _ :: _, [] => false
  | x :: xs, y :: ys =>
    if x.val < y.val then true
    else if y.val < x.val then false
    else charListLt xs ys

/-- String comparison via `charListLt`. -/
def strLt (a b : String) : Bool := charListLt a.data b.data

/-- Model of Rust `str::trim`: drop whitespace from both ends.  Structural so the
kernel can evaluate it. -/
def strTrim (s : String) : String :=
  ⟨((s.data.dropWhile Char.isWhitespace).reverse.dropWhile Char.isWhitespace).reverse⟩

/-- Stable insertion of one element into a list sorted by a string key: equal
keys keep the existing element first, matching Rust's stable `sort_by`. -/
def insertByKey {α : Type} (key : α → String) (x : α) : List α → List α
  | [] => [x]
  | h :: t => if strLt (key x) (key h) then x :: h :: t else h :: insertByKey key x t

/-- Stable sort by a string key; models `Vec::sort_by` with a string comparison. -/
def sortByKey {α : Type} (key : α → String) : List α → List α
  | [] => []
  | h :: t => insertByKey key h (sortByKey key t)

/-- Rust `Result`. -/
inductive RustResult (α ε : Type) where
  | ok (v : α)
  | err (e : ε)
  deriving DecidableEq, Repr

/-- Whether a `RustResult` is `ok`. -/
def RustResult.isOk {α ε : Type} : RustResult α ε → Bool
  | .ok _ => true
  | .err _ => false

/-- One typed key family of egui's `IdTypeMap` (`ctx.memory_mut(|mem| mem.data ...)`),
the process-wide store the views use as a result mailbox: background tasks
deposit with `insert_temp`, the render tick takes with `remove`. -/
def Mailbox (K V : Type) : Type := K → Option V

namespace Mailbox

/-- The empty store. -/
def empty {K V : Type} : Mailbox K V := fun _ => none

/-- `mem.data.insert_temp(key, value)`: deposit, overwriting any previous entry
for the same key (last write wins). -/
def insertTemp {K V : Type} [DecidableEq K] (m : Mailbox K V) (k : K) (v : V) : Mailbox K V :=
  fun q => if q = k then some v else m q

/-- `mem.data.remove::<V>(key)`: take-and-remove.  Returns the stored entry (if
any) together with the store with that key cleared. -/
def remove {K V : Type} [DecidableEq K] (m : Mailbox K V) (k : K) : Option V × Mailbox K V :=
  (m k, fun q => if q = k then none else m q)

@[simp] theorem empty_apply {K V : Type} (k : K) : (empty : Mailbox K V) k = none := rfl

@[simp] theorem insertTemp_apply_same {K V : Type} [DecidableEq K]
    (m : Mailbox K V) (k : K) (v : V) : (m.insertTemp k v) k = some v := by
  simp [insertTemp]

theorem insertTemp_apply_other {K V : Type} [DecidableEq K]
    (m : Mailbox K V) (k q : K) (v : V) (h : q ≠ k) : (m.insertTemp k v) q = m q := by
  simp [insertTemp, h]

@[simp] theorem remove_fst {K V : Type} [DecidableEq K]
    (m : Mailbox K V) (k : K) : (m.remove k).1 = m k := rfl

@[simp] theorem remove_snd_apply_same {K V : Type} [DecidableEq K]
    (m : Mailbox K V) (k : K) : (m.remove k).2 k = none := by
  simp [remove]

theorem remove_snd_apply_other {K V : Type} [DecidableEq K]
    (m : Mailbox K V) (k q : K) (h : q ≠ k) : (m.remove k).2 q = m q := by
  simp [remove, h]

end Mailbox

/-- `api::ApiError` (src/frontend-rust/src/api.rs, lines 12-25), with the
library-error payloads abstracted to their display strings. -/
inductive ApiError where
  | network (msg : String)
  | api (status : Nat) (message : String)
  | urlParse (msg : String)
  | serialize (msg : String)
  | invalidFormat (msg : String)
  | missingToken
  deriving DecidableEq, Repr

/-- The `thiserror` display strings of `ApiError` (src/api.rs lines 13-24). -/
def ApiError.display : ApiError → String
  | .network m => "Network error: " ++ m
  | .api s m => "API error: " ++ toString s ++ " - " ++ m
  | .urlParse m => "URL parsing error: " ++ m
  | .serialize m => "JSON serialization error: " ++ m
  | .invalidFormat m => "Invalid response format: " ++ m
  | .missingToken => "Authentication token is missing"

/-- `SearchResponse<T>` (crate `models`; fields reconstructed from their uses in
src/frontend-rust/src/views: `.data`, `.page`, `.total_pages`, `.total_size`). -/
structure SearchResponse (α : Type) where
  data : List α
  page : Nat
  totalPages : Nat
  totalSize : Nat
  deriving DecidableEq, Repr

/-! ## Element browser popover (src/frontend-rust/src/components/element_browser_popover_content.rs) -/

/-- `SelectionMode` (element_browser_popover_content.rs lines 14-19). -/
inductive SelectionMode where
  | hierarchical
  | free
  deriving DecidableEq, Repr

/-- `models::SignatureElement`; fields reconstructed from their uses in src
(`signature_element_id`, `name`, `index`). -/
structure SignatureElement where
  signatureElementId : Option Int
  name : String
  index : Option String
  deriving DecidableEq, Repr

/-- `models::SignatureComponent`; fields reconstructed from their uses in src. -/
structure SignatureComponent where
  signatureComponentId : Option Int
  name : String
  deriving DecidableEq, Repr

/-- The tuple hashed at element_browser_popover_content.rs lines 159-164:
`(current_mode, last_element_id, filter_comp_id_str, search_text)`.  We model
`egui::util::hash` as injective (collisions of the 64-bit hash are ignored),
so the "hash" simply is this tuple; the `0` sentinel the source uses for
"force refetch" is modelled as `none` at the use sites. -/
structure ElementFetchDeps where
  mode : SelectionMode
  lastElementId : Option Int
  filterComponentId : String
  searchText : String
  deriving DecidableEq, Repr

/-- `BrowserState` (element_browser_popover_content.rs lines 22-40), the state
persisted in egui memory under the popover id.  `last_fetch_dependencies_hash`
is a `u64` with `0` meaning "no recorded fetch / forced"; modelled as
`Option ElementFetchDeps` with `none` for `0`. -/
structure BrowserState where
  mode : SelectionMode := .hierarchical
  selectedComponentId : String := ""
  currentPathElements : List SignatureElement := []
  availableComponents : List SignatureComponent := []
  availableElements : List SignatureElement := []
  searchTerm : String := ""
  debouncedSearchTerm : String := ""
  lastSearchUpdate : Int := 0
  isLoadingComponents : Bool := false
  isLoadingElements : Bool := false
  error : Option String := none
  isCreateDialogOpen : Bool := false
  lastFetchDependenciesHash : Option ElementFetchDeps := none
  deriving DecidableEq, Repr

/-- `FetchComponentsResult` (line 43). -/
abbrev FetchComponentsResult := RustResult (List SignatureComponent) ApiError

/-- `FetchElementsResult` (line 44). -/
abbrev FetchElementsResult := RustResult (List SignatureElement) ApiError

/-- The dependency tuple computed at lines 151-164 from the current state:
mode, id of the last path element, component filter string, trimmed debounced
search text. -/
def currentDependenciesHash (s : BrowserState) : ElementFetchDeps :=
  { mode := s.mode
    lastElementId := s.currentPathElements.getLast?.bind (·.signatureElementId)
    filterComponentId := s.selectedComponentId
    searchText := strTrim s.debouncedSearchTerm }

/-- Application of a components-fetch result to the persisted state
(lines 80-99): clear the loading flag; on success sort by name and clear the
error, on failure record the error and clear the list. -/
def browserApplyComponentsResult (s : BrowserState) : FetchComponentsResult → BrowserState
  | .ok comps =>
    { s with isLoadingComponents := false
             availableComponents := sortByKey (·.name) comps
             error := none }
  | .err e =>
    { s with isLoadingComponents := false
             error := some ("Comps: " ++ e.display)
             availableComponents := [] }

/-- Application of an elements-fetch result to the persisted state
(lines 102-119): clear the loading flag; on success sort by
`index.unwrap_or(name)` and clear the error, on failure record the error and
clear the list. -/
def browserApplyElementsResult (s : BrowserState) : FetchElementsResult → BrowserState
  | .ok elems =>
    { s with isLoadingElements := false
             availableElements := sortByKey (fun el => el.index.getD el.name) elems
             error := none }
  | .err e =>
    { s with isLoadingElements := false
             error := some ("Elements: " ++ e.display)
             availableElements := [] }

/-- `DEBOUNCE_DELAY` (line 12), in milliseconds; time is modelled in integer
milliseconds instead of `f64` seconds. -/
def debounceDelayMs : Int := 300

/-- Debounce step (lines 123-129): once the delay has elapsed and the live
search term differs from the debounced one, promote it and zero the dependency
hash to force a fetch. -/
def browserDebounceStep (s : BrowserState) (time : Int) : BrowserState :=
  if s.lastSearchUpdate < time - debounceDelayMs ∧ s.searchTerm ≠ s.debouncedSearchTerm then
    { s with debouncedSearchTerm := s.searchTerm, lastFetchDependenciesHash := none }
  else s

/-- Components-fetch trigger (lines 131-146): spawn a components fetch when the
list is empty and none is loading; marks loading and clears the error.  The
returned flag reports whether a components-fetch task was spawned. -/
def browserComponentsFetchStep (s : BrowserState) : BrowserState × Bool :=
  if s.availableComponents = [] ∧ s.isLoadingComponents = false then
    ({ s with isLoadingComponents := true, error := none }, true)
  else (s, false)

/-- Elements-fetch trigger (lines 158-226): recompute the dependency tuple; if
it differs from the recorded one, record it; spawn a fetch task only if it
differed and no element fetch is marked in flight.  The second component is the
dependency tuple captured by the spawned task, if one was spawned. -/
def browserElementsFetchStep (s : BrowserState) : BrowserState × Option ElementFetchDeps :=
  let h := currentDependenciesHash s
  let needsFetch : Bool := s.lastFetchDependenciesHash ≠ some h
  let s1 := if needsFetch then { s with lastFetchDependenciesHash := some h } else s
  if needsFetch ∧ s1.isLoadingElements = false then
    ({ s1 with isLoadingElements := true, error := none }, some h)
  else (s1, none)

/-- User interactions of one frame that mutate the local `browser_state` clone
(lines 230-441).  Only interactions that compile to `.changed()`/`.clicked()`
handlers touching the fetch-relevant fields are modelled. -/
inductive BrowserUiEvent where
  | setMode (m : SelectionMode)
  | resetClick
  | removeLastPathElement
  | selectComponent (idStr : String)
  | searchEdited (txt : String)
  | selectElement (el : SignatureElement)
  deriving DecidableEq, Repr

/-- Effect of one user interaction on the local state clone.  Mode changes
(lines 234-241), reset (243-251), path pop (267-275), component selection
(294-307), search editing (324-331) and element selection (349-356) each clear
the element list and/or zero the dependency hash exactly as the source does. -/
def applyBrowserUiEvent (s : BrowserState) (time : Int) : BrowserUiEvent → BrowserState
  | .setMode m =>
    if m ≠ s.mode then
      { s with mode := m, availableElements := [], lastFetchDependenciesHash := none }
    else s
  | .resetClick =>
    { s with currentPathElements := [], selectedComponentId := "", searchTerm := ""
             debouncedSearchTerm := "", availableElements := [], error := none
             lastFetchDependenciesHash := none }
  | .removeLastPathElement =>
    { s with currentPathElements := s.currentPathElements.dropLast
             availableElements := [], lastFetchDependenciesHash := none }
  | .selectComponent idStr =>
    if idStr ≠ s.selectedComponentId then
      { s with selectedComponentId := idStr, availableElements := []
               lastFetchDependenciesHash := none }
    else s
  | .searchEdited txt =>
    if txt ≠ s.searchTerm then { s with searchTerm := txt, lastSearchUpdate := time } else s
  | .selectElement el =>
    { s with currentPathElements := s.currentPathElements ++ [el], searchTerm := ""
             debouncedSearchTerm := "", availableElements := []
             lastFetchDependenciesHash := none }

/-- Output of one frame of `show_element_browser`.  `persisted` is the value
written back by `insert_persisted` at line 447 — it is the **local clone**
taken at lines 72-75, as transformed by the debounce/fetch/UI pipeline.
`midPersisted` is the value the result-processing closures (lines 82-97 and
103-118) left in egui memory mid-frame; the line-447 write overwrites it, so it
never survives to the next frame. -/
structure BrowserFrameOut where
  persisted : BrowserState
  midPersisted : BrowserState
  compsSlot : Option FetchComponentsResult
  elemsSlot : Option FetchElementsResult
  compsSpawn : Bool
  elemsSpawn : Option ElementFetchDeps
  deriving Repr

/-- One frame of `show_element_browser` (lines 62-450), in source order: clone
the persisted state (72-75); take and apply the components result (80-99) and
the elements result (102-119) onto the in-memory copy; debounce (123-129),
components fetch (131-146) and elements fetch (158-226) on the local clone;
apply this frame's user interactions (230-441) to the local clone; persist the
local clone (447), overwriting the result applications. -/
def browserFrame (s : BrowserState) (compsSlot : Option FetchComponentsResult)
    (elemsSlot : Option FetchElementsResult) (time : Int) (ev : Option BrowserUiEvent) :
    BrowserFrameOut :=
  let mid1 := match compsSlot with
    | some r => browserApplyComponentsResult s r
    | none => s
  let mid2 := match elemsSlot with
    | some r => browserApplyElementsResult mid1 r
    | none => mid1
  let ls1 := browserDebounceStep s time
  let (ls2, compsSpawn) := browserComponentsFetchStep ls1
  let (ls3, elemsSpawn) := browserElementsFetchStep ls2
  let ls4 := match ev with
    | some e => applyBrowserUiEvent ls3 time e
    | none => ls3
  { persisted := ls4
    midPersisted := mid2
    compsSlot := none
    elemsSlot := none
    compsSpawn := compsSpawn
    elemsSpawn := elemsSpawn }

/-- The two fixed egui memory slots of the browser
(`BROWSER_FETCH_COMPONENTS_RESULT_ID` and `BROWSER_FETCH_ELEMENTS_RESULT_ID`,
lines 47-48) together with the persisted `BrowserState`, plus one ghost field:
the dependency tuple captured by the most recently spawned element-fetch task
(not stored by the program; carried to state history-based properties). -/
structure BrowserSys where
  st : BrowserState
  compsSlot : Option FetchComponentsResult
  elemsSlot : Option FetchElementsResult
  lastIssuedDeps : Option ElementFetchDeps
  deriving Repr

/-- Initial system: default `BrowserState` (serde defaults, lines 22-40),
empty slots, no fetch ever issued. -/
def browserSysInit : BrowserSys :=
  { st := {}, compsSlot := none, elemsSlot := none, lastIssuedDeps := none }

/-- Events of a browser execution: a render frame (with this frame's user
interaction, if any), or an asynchronous task completion depositing into one of
the two fixed result slots (`insert_temp` at lines 143 and 223). -/
inductive BrowserEvent where
  | frame (time : Int) (ev : Option BrowserUiEvent)
  | depositElements (r : FetchElementsResult)
  | depositComponents (r : FetchComponentsResult)

/-- System transition for one event. -/
def browserSysStep (sys : BrowserSys) : BrowserEvent → BrowserSys
  | .frame t ev =>
    let out := browserFrame sys.st sys.compsSlot sys.elemsSlot t ev
    { st := out.persisted
      compsSlot := out.compsSlot
      elemsSlot := out.elemsSlot
      lastIssuedDeps := match out.elemsSpawn with
        | some d => some d
        | none => sys.lastIssuedDeps }
  | .depositElements r => { sys with elemsSlot := some r }
  | .depositComponents r => { sys with compsSlot := some r }

/-- Whether one frame satisfies the fetch-issuance biconditional: an
element-fetch task is spawned in this frame exactly when the current dependency
tuple (as recomputed at lines 159-164, i.e. after the debounce step) differs
from the tuple captured at the last issued fetch AND `is_loading_elements` is
false. -/
def browserTickConforms (sys : BrowserSys) (time : Int) (ev : Option BrowserUiEvent) : Bool :=
  (browserFrame sys.st sys.compsSlot sys.elemsSlot time ev).elemsSpawn.isSome ==
    (decide (sys.lastIssuedDeps ≠
        some (currentDependenciesHash (browserComponentsFetchStep (browserDebounceStep sys.st time)).1)) &&
      !sys.st.isLoadingElements)

/-- Whether every frame of an event sequence satisfies the fetch-issuance
biconditional. -/
def browserRunConforms : BrowserSys → List BrowserEvent → Bool
  | _, [] => true
  | sys, .frame t ev :: rest =>
    browserTickConforms sys t ev && browserRunConforms (browserSysStep sys (.frame t ev)) rest
  | sys, e :: rest => browserRunConforms (browserSysStep sys e) rest

/-! ### Frame-level lemmas for the browser -/

theorem browserDebounceStep_isLoadingElements (s : BrowserState) (t : Int) :
    (browserDebounceStep s t).isLoadingElements = s.isLoadingElements := by
  unfold browserDebounceStep; split <;> rfl

theorem browserDebounceStep_availableElements (s : BrowserState) (t : Int) :
    (browserDebounceStep s t).availableElements = s.availableElements := by
  unfold browserDebounceStep; split <;> rfl

theorem browserDebounceStep_error (s : BrowserState) (t : Int) :
    (browserDebounceStep s t).error = s.error := by
  unfold browserDebounceStep; split <;> rfl

theorem browserDebounceStep_of_eq (s : BrowserState) (t : Int)
    (h : s.searchTerm = s.debouncedSearchTerm) : browserDebounceStep s t = s := by
  unfold browserDebounceStep
  rw [if_neg]
  intro hc
  exact hc.2 h

theorem browserDebounceStep_hash_none (s : BrowserState) (t : Int)
    (h : s.lastFetchDependenciesHash = none) :
    (browserDebounceStep s t).lastFetchDependenciesHash = none := by
  unfold browserDebounceStep; split <;> simp [h]

theorem browserComponentsFetchStep_isLoadingElements (s : BrowserState) :
    (browserComponentsFetchStep s).1.isLoadingElements = s.isLoadingElements := by
  unfold browserComponentsFetchStep; split <;> rfl

theorem browserComponentsFetchStep_availableElements (s : BrowserState) :
    (browserComponentsFetchStep s).1.availableElements = s.availableElements := by
  unfold browserComponentsFetchStep; split <;> rfl

theorem browserComponentsFetchStep_hash (s : BrowserState) :
    (browserComponentsFetchStep s).1.lastFetchDependenciesHash = s.lastFetchDependenciesHash := by
  unfold browserComponentsFetchStep; split <;> rfl

theorem browserComponentsFetchStep_deps (s : BrowserState) :
    currentDependenciesHash (browserComponentsFetchStep s).1 = currentDependenciesHash s := by
  unfold browserComponentsFetchStep; split <;> rfl

theorem browserComponentsFetchStep_of_guard (s : BrowserState)
    (h : ¬(s.availableComponents = [] ∧ s.isLoadingComponents = false)) :
    browserComponentsFetchStep s = (s, false) := by
  unfold browserComponentsFetchStep
  rw [if_neg h]

theorem browserComponentsFetchStep_error_of_guard (s : BrowserState)
    (h : ¬(s.availableComponents = [] ∧ s.isLoadingComponents = false)) :
    (browserComponentsFetchStep s).1.error = s.error := by
  rw [browserComponentsFetchStep_of_guard s h]

/-- While an element fetch is marked in flight, the elements-fetch trigger never
spawns (lines 172-176) and leaves the loading flag, the element list and the
error untouched; only the recorded dependency tuple may advance (line 168). -/
theorem browserElementsFetchStep_of_loading (s : BrowserState)
    (h : s.isLoadingElements = true) :
    (browserElementsFetchStep s).2 = none ∧
    (browserElementsFetchStep s).1.isLoadingElements = true ∧
    (browserElementsFetchStep s).1.availableElements = s.availableElements ∧
    (browserElementsFetchStep s).1.error = s.error := by
  unfold browserElementsFetchStep
  by_cases hn : s.lastFetchDependenciesHash ≠ some (currentDependenciesHash s) <;>
    simp [hn, h]

/-- When no element fetch is in flight and the recorded dependency hash is the
`0` sentinel, the trigger always spawns and records the current tuple. -/
theorem browserElementsFetchStep_of_fresh (s : BrowserState)
    (hl : s.isLoadingElements = false) (hh : s.lastFetchDependenciesHash = none) :
    (browserElementsFetchStep s).2 = some (currentDependenciesHash s) ∧
    (browserElementsFetchStep s).1.isLoadingElements = true := by
  unfold browserElementsFetchStep
  simp [hh, hl]

theorem applyBrowserUiEvent_isLoadingElements (s : BrowserState) (t : Int) (e : BrowserUiEvent) :
    (applyBrowserUiEvent s t e).isLoadingElements = s.isLoadingElements := by
  cases e with
  | setMode m => simp only [applyBrowserUiEvent]; split <;> rfl
  | resetClick => rfl
  | removeLastPathElement => rfl
  | selectComponent idStr => simp only [applyBrowserUiEvent]; split <;> rfl
  | searchEdited txt => simp only [applyBrowserUiEvent]; split <;> rfl
  | selectElement el => rfl

/-- The final persisted state of a frame keeps the loading flag of the state the
frame started from: result processing (lines 82-118) did clear it in memory, but
the line-447 write stores the local clone, in which only the fetch triggers (which
can only set it) acted. -/
theorem browserFrame_isLoadingElements_of_loading (s : BrowserState)
    (cs : Option FetchComponentsResult) (es : Option FetchElementsResult)
    (t : Int) (ev : Option BrowserUiEvent) (h : s.isLoadingElements = true) :
    (browserFrame s cs es t ev).persisted.isLoadingElements = true ∧
    (browserFrame s cs es t ev).elemsSpawn = none := by
  unfold browserFrame
  have h1 := browserDebounceStep_isLoadingElements s t
  have h2 := browserComponentsFetchStep_isLoadingElements (browserDebounceStep s t)
  have h3 := browserElementsFetchStep_of_loading
    (browserComponentsFetchStep (browserDebounceStep s t)).1 (by rw [h2, h1, h])
  cases ev with
  | none => exact ⟨h3.2.1, h3.1⟩
  | some e =>
    refine ⟨?_, h3.1⟩
    rw [applyBrowserUiEvent_isLoadingElements]
    exact h3.2.1

/-- When no element fetch is in flight and the recorded hash is the `0`
sentinel, a frame spawns an element fetch for the current (post-debounce)
dependency tuple and marks loading. -/
theorem browserFrame_of_fresh (s : BrowserState)
    (cs : Option FetchComponentsResult) (es : Option FetchElementsResult)
    (t : Int) (ev : Option BrowserUiEvent)
    (hl : s.isLoadingElements = false) (hh : s.lastFetchDependenciesHash = none) :
    (browserFrame s cs es t ev).elemsSpawn =
      some (currentDependenciesHash (browserComponentsFetchStep (browserDebounceStep s t)).1) ∧
    (browserFrame s cs es t ev).persisted.isLoadingElements = true := by
  unfold browserFrame
  have h1 := browserDebounceStep_isLoadingElements s t
  have h1h := browserDebounceStep_hash_none s t hh
  have h2 := browserComponentsFetchStep_isLoadingElements (browserDebounceStep s t)
  have h2h := browserComponentsFetchStep_hash (browserDebounceStep s t)
  have h3 := browserElementsFetchStep_of_fresh
    (browserComponentsFetchStep (browserDebounceStep s t)).1
    (by rw [h2, h1, hl]) (by rw [h2h, h1h])
  cases ev with
  | none => exact ⟨h3.1, h3.2⟩
  | some e =>
    refine ⟨h3.1, ?_⟩
    rw [applyBrowserUiEvent_isLoadingElements]
    exact h3.2

/-- Invariant of browser executions: before the first element fetch is issued
the loading flag is clear and the recorded hash is still the sentinel; from the
first issue on, the loading flag is permanently set (the result application at
lines 102-119 that would clear it is overwritten by the line-447 persist). -/
def BrowserSysInv (sys : BrowserSys) : Prop :=
  (sys.st.isLoadingElements = false ∧ sys.lastIssuedDeps = none ∧
    sys.st.lastFetchDependenciesHash = none) ∨
  (sys.st.isLoadingElements = true ∧ sys.lastIssuedDeps.isSome = true)

theorem browserSysInit_inv : BrowserSysInv browserSysInit := by
  left; exact ⟨rfl, rfl, rfl⟩

theorem browserTickConforms_of_inv (sys : BrowserSys) (t : Int) (ev : Option BrowserUiEvent)
    (h : BrowserSysInv sys) : browserTickConforms sys t ev = true := by
  unfold browserTickConforms
  rcases h with ⟨hl, hi, hh⟩ | ⟨hl, hi⟩
  · have := browserFrame_of_fresh sys.st sys.compsSlot sys.elemsSlot t ev hl hh
    rw [this.1, hl, hi]
    simp
  · have := browserFrame_isLoadingElements_of_loading sys.st sys.compsSlot sys.elemsSlot t ev hl
    rw [this.2, hl]
    simp

theorem browserSysStep_inv (sys : BrowserSys) (e : BrowserEvent)
    (h : BrowserSysInv sys) : BrowserSysInv (browserSysStep sys e) := by
  cases e with
  | frame t ev =>
    rcases h with ⟨hl, hi, hh⟩ | ⟨hl, hi⟩
    · right
      have := browserFrame_of_fresh sys.st sys.compsSlot sys.elemsSlot t ev hl hh
      constructor
      · exact this.2
      · show (match (browserFrame sys.st sys.compsSlot sys.elemsSlot t ev).elemsSpawn with
          | some d => some d
          | none => sys.lastIssuedDeps).isSome = true
        rw [this.1]
        rfl
    · right
      have := browserFrame_isLoadingElements_of_loading sys.st sys.compsSlot sys.elemsSlot t ev hl
      constructor
      · exact this.1
      · show (match (browserFrame sys.st sys.compsSlot sys.elemsSlot t ev).elemsSpawn with
          | some d => some d
          | none => sys.lastIssuedDeps).isSome = true
        rw [this.2]
        exact hi
  | depositElements r =>
    rcases h with ⟨hl, hi, hh⟩ | ⟨hl, hi⟩
    · left; exact ⟨hl, hi, hh⟩
    · right; exact ⟨hl, hi⟩
  | depositComponents r =>
    rcases h with ⟨hl, hi, hh⟩ | ⟨hl, hi⟩
    · left; exact ⟨hl, hi, hh⟩
    · right; exact ⟨hl, hi⟩

theorem browserRunConforms_of_inv (evs : List BrowserEvent) (sys : BrowserSys)
    (h : BrowserSysInv sys) : browserRunConforms sys evs = true := by
  induction evs generalizing sys with
  | nil => rfl
  | cons e rest ih =>
    cases e with
    | frame t ev =>
      unfold browserRunConforms
      rw [browserTickConforms_of_inv sys t ev h, ih _ (browserSysStep_inv sys _ h)]
      rfl
    | depositElements r =>
      unfold browserRunConforms
      exact ih _ (browserSysStep_inv sys _ h)
    | depositComponents r =>
      unfold browserRunConforms
      exact ih _ (browserSysStep_inv sys _ h)

/-! ## Notes view (src/frontend-rust/src/views/notes.rs) -/

/-- `models::NoteWithDetails`, abstracted to the identity fields the notes view
moves around (the view stores the fetched list opaquely in `state.notes_cache`). -/
structure NoteWithDetails where
  noteId : Option Int
  title : String
  deriving DecidableEq, Repr

/-- `GenericMessageResponse` (crate `models`), abstracted to its message. -/
structure GenericMessageResponse where
  message : String
  deriving DecidableEq, Repr

/-- `state::NoteEditorState` (src/frontend-rust/src/state.rs line 93). -/
structure NoteEditorState where
  title : String := ""
  content : String := ""
  shared : Bool := false
  selectedTagIds : List Int := []
  isLoading : Bool := false
  error : Option String := none
  validationErrors : List (String × String) := []
  saveTriggered : Bool := false
  deriving DecidableEq, Repr

/-- `state::NotesViewState` (src/frontend-rust/src/state.rs line 61).  The
`usize` pages default to `0`. -/
structure NotesViewState where
  isLoading : Bool := false
  error : Option String := none
  searchTerm : String := ""
  currentPage : Nat := 0
  totalPages : Nat := 0
  editingNoteId : Option Int := none
  isEditorOpen : Bool := false
  previewingNoteId : Option Int := none
  isPreviewOpen : Bool := false
  noteEditorState : NoteEditorState := {}
  deriving DecidableEq, Repr

/-- The fragment of `state::AppState` the notes view reads and writes:
`notes_cache`, `ui_state.notes_view_state` and `auth.token`. -/
structure NotesAppState where
  notesCache : Option (List NoteWithDetails) := none
  notesViewState : NotesViewState := {}
  authToken : Option String := none
  deriving DecidableEq, Repr

/-- `FetchNotesResult` (notes.rs line 12). -/
abbrev FetchNotesResult := RustResult (SearchResponse NoteWithDetails) ApiError

/-- `SaveNoteResult` (notes.rs line 13). -/
abbrev SaveNoteResult := RustResult NoteWithDetails ApiError

/-- `DeleteNoteResult` (notes.rs line 14). -/
abbrev DeleteNoteResult := RustResult GenericMessageResponse ApiError

/-- The egui memory slots the notes view uses (notes.rs lines 17-19, 75, 184):
fetch results keyed by page (`"fetch_notes_result_"` joined `.with(page)`), the
fixed save-result slot, delete results keyed by note id, the
`"note_deleted_id_flag"` completion marker, and the `"notes_set_loading"`
bool flag. -/
structure NotesMemory where
  fetchResults : Mailbox Nat FetchNotesResult := Mailbox.empty
  saveResult : Option SaveNoteResult := none
  deleteResults : Mailbox Int DeleteNoteResult := Mailbox.empty
  noteDeletedIdFlag : Option Int := none
  notesSetLoading : Bool := false

/-- Asynchronous tasks the notes view spawns (`tokio::spawn` at notes.rs lines
499, 534, 577). -/
inductive NotesSpawn where
  | fetchNotes (page : Nat)
  | saveNote (noteId : Option Int) (title : String)
  | deleteNote (noteId : Int)
  deriving DecidableEq, Repr

/-- User interactions of one frame of the notes view that the claims exercise:
a pagination click, the editor save button, the editor cancel button, and
closing the editor window. -/
inductive NotesUiEvent where
  | pageChange (newPage : Nat)
  | saveClick
  | cancelClick
  | closeEditor
  deriving DecidableEq, Repr

/-- `trigger_notes_fetch_paginated` (notes.rs lines 470-508): set the
`notes_set_loading` memory flag; with no token, synchronously deposit
`Err(MissingToken)` under the requested page's key; otherwise spawn the fetch
task for that page (which will deposit under that same key, line 504-505). -/
def triggerNotesFetchPaginated (page : Nat) (token : Option String) (mem : NotesMemory) :
    NotesMemory × List NotesSpawn :=
  let mem := { mem with notesSetLoading := true }
  match token with
  | none =>
    ({ mem with fetchResults := mem.fetchResults.insertTemp page (.err .missingToken) }, [])
  | some _ => (mem, [.fetchNotes page])

/-- `trigger_notes_fetch` (notes.rs lines 456-467): set the view loading, clear
its error, and fetch page 1. -/
def triggerNotesFetch (s : NotesAppState) (mem : NotesMemory) :
    NotesAppState × NotesMemory × List NotesSpawn :=
  let s := { s with notesViewState := { s.notesViewState with isLoading := true, error := none } }
  let (mem, sp) := triggerNotesFetchPaginated 1 s.authToken mem
  (s, mem, sp)

/-- Fetch-result processing (notes.rs lines 26-53): take the entry under the
key built from the **current page**; on success replace the cache and take the
page/total from the response; on failure record the error, clear the cache and
reset pages to 1. -/
def notesProcessFetchResult (s : NotesAppState) (mem : NotesMemory) :
    NotesAppState × NotesMemory :=
  let key := s.notesViewState.currentPage
  let (taken, fr) := mem.fetchResults.remove key
  let mem := { mem with fetchResults := fr }
  match taken with
  | none => (s, mem)
  | some (.ok resp) =>
    ({ s with notesCache := some resp.data
              notesViewState := { s.notesViewState with
                isLoading := false
                totalPages := resp.totalPages
                currentPage := resp.page
                error := none } }, mem)
  | some (.err e) =>
    ({ s with notesCache := none
              notesViewState := { s.notesViewState with
                isLoading := false
                error := some ("Failed to fetch notes: " ++ e.display)
                totalPages := 1
                currentPage := 1 } }, mem)

/-- Save-result processing (notes.rs lines 56-72): on success clear the editor
error and loading; on failure set the editor error, clear loading, and reset
the `save_triggered` flag. -/
def notesProcessSaveResult (s : NotesAppState) (mem : NotesMemory) :
    NotesAppState × NotesMemory :=
  match mem.saveResult with
  | none => (s, mem)
  | some r =>
    let mem := { mem with saveResult := none }
    let es := s.notesViewState.noteEditorState
    let es := match r with
      | .ok _ => { es with error := none, isLoading := false }
      | .err e =>
        { es with error := some ("Save failed: " ++ e.display)
                  isLoading := false
                  saveTriggered := false }
    ({ s with notesViewState := { s.notesViewState with noteEditorState := es } }, mem)

/-- Delete-completion processing (notes.rs lines 75-99): take the
`note_deleted_id_flag` marker; if present, take the delete result stored under
that id; on `Ok` trigger a (page-1) refetch, on `Err` set the view error and
clear loading; if the marker was set but no result is stored, just clear
loading. -/
def notesProcessDeleteFlag (s : NotesAppState) (mem : NotesMemory) :
    NotesAppState × NotesMemory × List NotesSpawn :=
  match mem.noteDeletedIdFlag with
  | none => (s, mem, [])
  | some deletedId =>
    let mem := { mem with noteDeletedIdFlag := none }
    let (taken, dr) := mem.deleteResults.remove deletedId
    let mem := { mem with deleteResults := dr }
    match taken with
    | some (.ok _) => triggerNotesFetch s mem
    | some (.err e) =>
      ({ s with notesViewState := { s.notesViewState with
          error := some ("Failed to delete note: " ++ e.display)
          isLoading := false } }, mem, [])
    | none =>
      ({ s with notesViewState := { s.notesViewState with isLoading := false } }, mem, [])

/-- The fetch-trigger predicate (notes.rs lines 124-126): cache missing, not
loading, no error. -/
def notesShouldFetch (s : NotesAppState) : Bool :=
  s.notesCache = none ∧ s.notesViewState.isLoading = false ∧ s.notesViewState.error = none

/-- Fetch-trigger evaluation (notes.rs lines 124-130). -/
def notesFetchTriggerEval (s : NotesAppState) (mem : NotesMemory) :
    NotesAppState × NotesMemory × List NotesSpawn :=
  if notesShouldFetch s then triggerNotesFetch s mem else (s, mem, [])

/-- Pagination section (notes.rs lines 143-182): rendered only when the view is
not loading; `show_pagination` returns early unless `total_pages > 1`; a page
click calls `trigger_notes_fetch_paginated(new_page)` and sets the
`notes_set_loading` flag (set twice: once in the closure, once inside the
trigger — idempotent). -/
def notesPaginationStep (s : NotesAppState) (mem : NotesMemory) (ev : Option NotesUiEvent) :
    NotesMemory × List NotesSpawn :=
  if s.notesViewState.isLoading = false then
    match ev with
    | some (.pageChange p) =>
      if s.notesViewState.totalPages > 1 then triggerNotesFetchPaginated p s.authToken mem
      else (mem, [])
    | _ => (mem, [])
  else (mem, [])

/-- Consumption of the `notes_set_loading` flag (notes.rs lines 184-186). -/
def notesConsumeSetLoading (s : NotesAppState) (mem : NotesMemory) :
    NotesAppState × NotesMemory :=
  if mem.notesSetLoading then
    ({ s with notesViewState := { s.notesViewState with isLoading := true } },
      { mem with notesSetLoading := false })
  else (s, { mem with notesSetLoading := false })

/-- `trigger_note_save` (notes.rs lines 512-554): without a token set the
editor error; otherwise mark the editor saving, clear its error, set the sticky
`save_triggered` flag immediately, and spawn the save task. -/
def triggerNoteSave (noteId : Option Int) (es : NoteEditorState) (token : Option String) :
    NoteEditorState × List NotesSpawn :=
  match token with
  | none =>
    ({ es with error := some "Authentication required to save.", isLoading := false }, [])
  | some _ =>
    ({ es with isLoading := true, error := none, saveTriggered := true },
      [.saveNote noteId es.title])

/-- Editor dialog interactions (notes.rs lines 193-210 and 341-451): the save
button is enabled only when the editor is not saving, has no validation errors
and a non-blank title (line 419-421); cancel closes and resets the
`save_triggered` flag (lines 437-440); the window's close box just closes. -/
def notesEditorStep (s : NotesAppState) (ev : Option NotesUiEvent) :
    NotesAppState × List NotesSpawn :=
  if s.notesViewState.isEditorOpen then
    match ev with
    | some .saveClick =>
      let es := s.notesViewState.noteEditorState
      if es.isLoading = false ∧ es.validationErrors = [] ∧ strTrim es.title ≠ "" then
        let (es2, sp) := triggerNoteSave s.notesViewState.editingNoteId es s.authToken
        ({ s with notesViewState := { s.notesViewState with noteEditorState := es2 } }, sp)
      else (s, [])
    | some .cancelClick =>
      ({ s with notesViewState := { s.notesViewState with
          isEditorOpen := false
          noteEditorState := { s.notesViewState.noteEditorState with saveTriggered := false } } },
        [])
    | some .closeEditor =>
      ({ s with notesViewState := { s.notesViewState with isEditorOpen := false } }, [])
    | _ => (s, [])
  else (s, [])

/-- Refetch-on-close (notes.rs lines 213-221): once the editor is closed and a
save was attempted, reset the sticky flag and trigger a fresh fetch. -/
def notesCloseRefetchStep (s : NotesAppState) (mem : NotesMemory) :
    NotesAppState × NotesMemory × List NotesSpawn :=
  if s.notesViewState.isEditorOpen = false ∧
      s.notesViewState.noteEditorState.saveTriggered = true then
    let s := { s with notesViewState := { s.notesViewState with
      noteEditorState := { s.notesViewState.noteEditorState with saveTriggered := false } } }
    triggerNotesFetch s mem
  else (s, mem, [])

/-- One frame of `show_notes_view` (notes.rs lines 23-225), in source order:
process the fetch result under the current page's key (33-53), the save result
(56-72) and the delete marker (75-99); evaluate the fetch trigger (124-130);
handle a pagination click if not loading (143-182); consume the
`notes_set_loading` flag (184-186); handle editor interactions (193-210); and
refetch once if the editor is closed after a save attempt (213-221). -/
def notesFrame (s : NotesAppState) (mem : NotesMemory) (ev : Option NotesUiEvent) :
    NotesAppState × NotesMemory × List NotesSpawn :=
  let (s, mem) := notesProcessFetchResult s mem
  let (s, mem) := notesProcessSaveResult s mem
  let (s, mem, sp1) := notesProcessDeleteFlag s mem
  let (s, mem, sp2) := notesFetchTriggerEval s mem
  let (mem, sp3) := notesPaginationStep s mem ev
  let (s, mem) := notesConsumeSetLoading s mem
  let (s, sp4) := notesEditorStep s ev
  let (s, mem, sp5) := notesCloseRefetchStep s mem
  (s, mem, sp1 ++ sp2 ++ sp3 ++ sp4 ++ sp5)

/-- Asynchronous completions depositing into the notes memory: the fetch task
(notes.rs lines 504-505), the save task (551), and the delete task, which
stores both the result and the completion marker (581-584). -/
inductive NotesDeposit where
  | fetchResult (page : Nat) (r : FetchNotesResult)
  | saved (r : SaveNoteResult)
  | deleteComplete (noteId : Int) (r : DeleteNoteResult)

/-- Apply a task completion to the notes memory. -/
def applyNotesDeposit (mem : NotesMemory) : NotesDeposit → NotesMemory
  | .fetchResult p r => { mem with fetchResults := mem.fetchResults.insertTemp p r }
  | .saved r => { mem with saveResult := some r }
  | .deleteComplete i r =>
    { mem with deleteResults := mem.deleteResults.insertTemp i r
               noteDeletedIdFlag := some i }

/-! ## Tags view (src/frontend-rust/src/views/tags.rs) -/

/-- `models::Tag`; fields reconstructed from their uses in src. -/
structure Tag where
  tagId : Option Int
  name : String
  description : Option String
  deriving DecidableEq, Repr

/-- The fragment of `state::TagsViewState` (state.rs line 62) the fetch trigger
touches, together with the cache and token from `AppState`. -/
structure TagsAppState where
  tagsCache : Option (List Tag) := none
  isLoading : Bool := false
  error : Option String := none
  authToken : Option String := none
  deriving DecidableEq, Repr

/-- Tasks spawned by the tags view (`tokio::spawn` at tags.rs line 357). -/
inductive TagsSpawn where
  | fetchTags
  deriving DecidableEq, Repr

/-- The fetch-trigger predicate (tags.rs lines 111-113): cache missing, not
loading, no error. -/
def tagsShouldFetch (s : TagsAppState) : Bool :=
  s.tagsCache = none ∧ s.isLoading = false ∧ s.error = none

/-- `trigger_tags_fetch` (tags.rs lines 342-365): return immediately if already
loading; otherwise mark loading, clear the error; without a token record the
error, otherwise spawn the fetch task. -/
def triggerTagsFetch (s : TagsAppState) : TagsAppState × List TagsSpawn :=
  if s.isLoading then (s, [])
  else
    let s := { s with isLoading := true, error := none }
    match s.authToken with
    | none =>
      ({ s with isLoading := false, error := some "Authentication token missing." }, [])
    | some _ => (s, [.fetchTags])

/-- Fetch-trigger evaluation (tags.rs lines 111-117). -/
def tagsFetchTriggerEval (s : TagsAppState) : TagsAppState × List TagsSpawn :=
  if tagsShouldFetch s then triggerTagsFetch s else (s, [])

/-- `n` consecutive fetch-trigger evaluations of the tags view, collecting the
spawned tasks. -/
def tagsTriggerRun : Nat → TagsAppState → TagsAppState × List TagsSpawn
  | 0, s => (s, [])
  | n + 1, s =>
    let (s1, sp) := tagsFetchTriggerEval s
    let (s2, rest) := tagsTriggerRun n s1
    (s2, sp ++ rest)

/-- `n` consecutive fetch-trigger evaluations of the notes view (notes.rs lines
124-130), collecting the spawned tasks. -/
def notesTriggerRun : Nat → NotesAppState → NotesMemory → (NotesAppState × NotesMemory) × List NotesSpawn
  | 0, s, mem => ((s, mem), [])
  | n + 1, s, mem =>
    let (s1, mem1, sp) := notesFetchTriggerEval s mem
    let (p, rest) := notesTriggerRun n s1 mem1
    (p, sp ++ rest)

/-- `n` consecutive elements-fetch trigger evaluations of the element browser
(element_browser_popover_content.rs lines 158-226), collecting the dependency
tuples of the spawned tasks. -/
def browserTriggerRun : Nat → BrowserState → BrowserState × List ElementFetchDeps
  | 0, s => (s, [])
  | n + 1, s =>
    let (s1, sp) := browserElementsFetchStep s
    let (s2, rest) := browserTriggerRun n s1
    (s2, (match sp with | some d => [d] | none => []) ++ rest)

/-! ## Elements view (src/frontend-rust/src/views/signatures_elements.rs) -/

/-- `models::SignatureElementSearchResult`; only its `.element` field is used
by the view. -/
structure SignatureElementSearchResult where
  element : SignatureElement
  deriving DecidableEq, Repr

/-- `state::ElementEditorState` (state.rs line 95). -/
structure ElementEditorState where
  name : String := ""
  description : String := ""
  index : String := ""
  selectedParentIds : List Int := []
  isLoading : Bool := false
  isFetchingDetails : Bool := false
  error : Option String := none
  validationErrors : List (String × String) := []
  saveTriggered : Bool := false
  deriving DecidableEq, Repr

/-- `state::ElementsViewState` (state.rs line 64). -/
structure ElementsViewState where
  isLoading : Bool := false
  error : Option String := none
  editingElementId : Option Int := none
  isFormOpen : Bool := false
  elementEditorState : ElementEditorState := {}
  currentPage : Nat := 0
  totalPages : Nat := 0
  needsRefreshAfterDelete : Bool := false
  deriving DecidableEq, Repr

/-- The fragment of `state::AppState` the elements view reads and writes. -/
structure ElementsAppState where
  currentComponentIdViewing : Option Int := none
  currentElementsCache : Option (List SignatureElementSearchResult) := none
  elementsViewState : ElementsViewState := {}
  authToken : Option String := none
  deriving DecidableEq, Repr

/-- `FetchElementsResult` of the elements view (signatures_elements.rs line 14). -/
abbrev FetchElementsViewResult := RustResult (SearchResponse SignatureElementSearchResult) ApiError

/-- The egui memory slots the elements view uses: fetch results keyed by
`(component_id, page)` (`"fetch_elements_result"` chained `.with(component_id)`
`.with(page)`, lines 36 and 422), and the `"elements_set_loading"` flag
(lines 186 and 199). -/
structure ElementsMemory where
  fetchResults : Mailbox (Int × Nat) FetchElementsViewResult := Mailbox.empty
  elementsSetLoading : Bool := false

/-- Tasks spawned by the elements view (`tokio::spawn` at
signatures_elements.rs line 417). -/
inductive ElementsSpawn where
  | fetchElements (componentId : Int) (page : Nat)
  deriving DecidableEq, Repr

/-- User interaction of one frame of the elements view exercised by the
claims: a pagination click. -/
inductive ElementsUiEvent where
  | pageChange (newPage : Nat)
  deriving DecidableEq, Repr

/-- `trigger_elements_fetch` (signatures_elements.rs lines 382-426): without a
token synchronously deposit `Err(MissingToken)` under the `(component, page)`
key; otherwise spawn the fetch task for that key. -/
def triggerElementsFetch (componentId : Int) (page : Nat) (token : Option String)
    (mem : ElementsMemory) : ElementsMemory × List ElementsSpawn :=
  match token with
  | none =>
    ({ mem with fetchResults := mem.fetchResults.insertTemp (componentId, page) (.err .missingToken) },
      [])
  | some _ => (mem, [.fetchElements componentId page])

/-- Fetch-result processing of the elements view (signatures_elements.rs lines
80-107): take the entry under the key built from the viewed component and the
**current page**; on success replace the cache and take page/total from the
response; on failure record the error, clear the cache and reset pages to 1. -/
def elementsProcessFetchResult (componentId : Int) (s : ElementsAppState)
    (mem : ElementsMemory) : ElementsAppState × ElementsMemory :=
  let key := (componentId, s.elementsViewState.currentPage)
  let (taken, fr) := mem.fetchResults.remove key
  let mem := { mem with fetchResults := fr }
  match taken with
  | none => (s, mem)
  | some r =>
    if s.currentComponentIdViewing = some componentId then
      match r with
      | .ok resp =>
        ({ s with currentElementsCache := some resp.data
                  elementsViewState := { s.elementsViewState with
                    isLoading := false
                    totalPages := resp.totalPages
                    currentPage := resp.page
                    error := none } }, mem)
      | .err e =>
        ({ s with currentElementsCache := none
                  elementsViewState := { s.elementsViewState with
                    isLoading := false
                    error := some ("Fetch failed: " ++ e.display)
                    totalPages := 1
                    currentPage := 1 } }, mem)
    else
      ({ s with elementsViewState := { s.elementsViewState with isLoading := false } }, mem)

/-- One frame of `show_elements_view` (signatures_elements.rs lines 17-253), in
source order: early return when no component is selected (18-29); process the
fetch result (80-107); refetch once if `needs_refresh_after_delete` is set
(114-124); evaluate the fetch trigger (129-142); handle a pagination click if
not loading (176-189); consume the `elements_set_loading` flag (199-201); and
refetch once if the editor is closed after a save attempt (238-252). -/
def elementsFrame (s : ElementsAppState) (mem : ElementsMemory) (ev : Option ElementsUiEvent) :
    ElementsAppState × ElementsMemory × List ElementsSpawn :=
  match s.currentComponentIdViewing with
  | none => (s, mem, [])
  | some componentId =>
    let (s, mem) := elementsProcessFetchResult componentId s mem
    let (s, mem, sp1) :=
      if s.elementsViewState.needsRefreshAfterDelete then
        let s := { s with elementsViewState :=
          { s.elementsViewState with needsRefreshAfterDelete := false } }
        let (mem, sp) :=
          triggerElementsFetch componentId s.elementsViewState.currentPage s.authToken mem
        ({ s with elementsViewState := { s.elementsViewState with isLoading := true } }, mem, sp)
      else (s, mem, [])
    let (s, mem, sp2) :=
      if s.currentElementsCache = none ∧ s.elementsViewState.isLoading = false ∧
          s.elementsViewState.error = none then
        let (mem, sp) :=
          triggerElementsFetch componentId s.elementsViewState.currentPage s.authToken mem
        ({ s with elementsViewState := { s.elementsViewState with isLoading := true } }, mem, sp)
      else (s, mem, [])
    let (mem, sp3) :=
      if s.elementsViewState.isLoading = false then
        match ev with
        | some (.pageChange p) =>
          if s.elementsViewState.totalPages > 1 then
            let (mem, sp) := triggerElementsFetch componentId p s.authToken mem
            ({ mem with elementsSetLoading := true }, sp)
          else (mem, [])
        | none => (mem, [])
      else (mem, [])
    let (s, mem) :=
      if mem.elementsSetLoading then
        ({ s with elementsViewState := { s.elementsViewState with isLoading := true } },
          { mem with elementsSetLoading := false })
      else (s, mem)
    let (s, mem, sp4) :=
      if s.elementsViewState.isFormOpen = false ∧
          s.elementsViewState.elementEditorState.saveTriggered = true then
        let s := { s with elementsViewState := { s.elementsViewState with
          elementEditorState :=
            { s.elementsViewState.elementEditorState with saveTriggered := false } } }
        let (mem, sp) :=
          triggerElementsFetch componentId s.elementsViewState.currentPage s.authToken mem
        ({ s with elementsViewState := { s.elementsViewState with isLoading := true } }, mem, sp)
      else (s, mem, [])
    (s, mem, sp1 ++ sp2 ++ sp3 ++ sp4)

/-! ## Signature selector and resolved-path cache
(src/frontend-rust/src/components/signature_selector.rs) -/

/-- An id-path key of the resolved-path cache: `Vec<i64>` of element ids. -/
abbrev IdSequence := List Int

/-- The shared `Arc<Mutex<HashMap<Vec<i64>, String>>>` cache, modelled as an
association list whose **first** matching entry wins on lookup; inserts
prepend, so later inserts shadow earlier ones, matching `HashMap` overwrite
semantics under lookup. -/
abbrev ResolvedPathsCache := List (IdSequence × String)

/-- Lookup in the cache (`cache.contains_key` / `cache.get`). -/
def cacheLookup : ResolvedPathsCache → IdSequence → Option String
  | [], _ => none
  | (k, v) :: t, q => if q = k then some v else cacheLookup t q

/-- `HashMap::extend` (signature_selector.rs line 87): entries of the delivered
map shadow existing ones. -/
def cacheExtend (c newEntries : ResolvedPathsCache) : ResolvedPathsCache :=
  newEntries ++ c

/-- `paths_to_resolve` (signature_selector.rs lines 112-118): the signatures
that are non-empty and not yet in the cache. -/
def pathsToResolve (signatures : List IdSequence) (cache : ResolvedPathsCache) :
    List IdSequence :=
  signatures.filter (fun p => !p.isEmpty && (cacheLookup cache p).isNone)

/-- Spec contract `get_many(keys) -> Set<IdSequence>` (spec section 4.3):
subset of the keys not yet resolved.  The source realizes it as the
`paths_to_resolve` filter. -/
def getMany (keys : List IdSequence) (cache : ResolvedPathsCache) : List IdSequence :=
  keys.filter (fun p => (cacheLookup cache p).isNone)

/-- The display text of one resolved element (signature_selector.rs line 138):
`"[index] "` prefix when an index exists, then the name. -/
def formatElementDisplay (el : SignatureElement) : String :=
  (match el.index with
    | some i => "[" ++ i ++ "] "
    | none => "") ++ el.name

/-- The per-element error placeholder (signature_selector.rs line 141). -/
def errPlaceholder (elementId : Int) : String :=
  "[ErrID:" ++ toString elementId ++ "]"

/-- The display parts accumulated for one id-path (signature_selector.rs lines
132-153): each id is looked up sequentially; a successful lookup contributes
its display text, a failed one the `[ErrID:id]` placeholder; with no token the
loop breaks, contributing nothing further. -/
def resolvePathParts (resolver : Int → RustResult SignatureElement ApiError)
    (token : Option String) : List Int → List String
  | [] => []
  | elementId :: rest =>
    match token with
    | none => []
    | some _ =>
      (match resolver elementId with
        | .ok el => formatElementDisplay el
        | .err _ => errPlaceholder elementId) :: resolvePathParts resolver token rest

/-- The batch map deposited by one resolve task (signature_selector.rs lines
125-162): empty paths are skipped; every other path — even one with failed
lookups — is inserted with its `" / "`-joined display parts. -/
def resolveBatch (resolver : Int → RustResult SignatureElement ApiError)
    (token : Option String) (paths : List IdSequence) : ResolvedPathsCache :=
  paths.foldl
    (fun acc p =>
      if p.isEmpty then acc
      else (p, String.intercalate " / " (resolvePathParts resolver token p)) :: acc)
    []

/-- `SignatureSelectorState` (signature_selector.rs lines 23-28). -/
structure SignatureSelectorState where
  isBrowserOpen : Bool := false
  isResolving : Bool := false
  error : Option String := none
  deriving DecidableEq, Repr

/-- The resolve trigger of one render of the selector widget
(signature_selector.rs lines 111-165): when some paths are unresolved and no
resolve task is running, mark resolving and spawn one task for exactly those
paths. -/
def selectorResolveStep (signatures : List IdSequence) (cache : ResolvedPathsCache)
    (st : SignatureSelectorState) : SignatureSelectorState × Option (List IdSequence) :=
  let toResolve := pathsToResolve signatures cache
  if toResolve ≠ [] ∧ st.isResolving = false then
    ({ st with isResolving := true, error := none }, some toResolve)
  else (st, none)

/-! ## Claim theorems -/

/-- C3: Mailbox take-once and last-write-wins.  A deposit followed by a take on
the dispatch tick returns the deposited value and removes the entry, so a
second take of the same key — in the same tick or any later tick, even after
deposits under other keys — returns nothing; and a second deposit under the
same key before any take overwrites the first, so the eventual take returns the
second value. -/
theorem mailbox_take_once_and_last_write_wins {K V : Type} [DecidableEq K]
    (m : Mailbox K V) (k k2 : K) (v v' v2 : V) (hk : k2 ≠ k) :
    ((m.insertTemp k v).remove k).1 = some v ∧
    (((m.insertTemp k v).remove k).2.remove k).1 = none ∧
    ((((m.insertTemp k v).remove k).2.insertTemp k2 v2).remove k).1 = none ∧
    (((m.insertTemp k v).insertTemp k v').remove k).1 = some v' := by
  refine ⟨by simp, by simp, ?_, by simp⟩
  rw [Mailbox.remove_fst, Mailbox.insertTemp_apply_other _ _ _ _ (Ne.symm hk),
    Mailbox.remove_snd_apply_same]

/-- Witness for C3 at concrete keys and values. -/
theorem mailbox_take_once_and_last_write_wins_witness :
    (2 : Nat) ≠ 1 ∧
    ((((Mailbox.empty : Mailbox Nat Nat).insertTemp 1 5).remove 1).1 = some 5 ∧
      ((((Mailbox.empty : Mailbox Nat Nat).insertTemp 1 5).remove 1).2.remove 1).1 = none ∧
      (((((Mailbox.empty : Mailbox Nat Nat).insertTemp 1 5).remove 1).2.insertTemp 2 9).remove 1).1 =
        none ∧
      ((((Mailbox.empty : Mailbox Nat Nat).insertTemp 1 5).insertTemp 1 7).remove 1).1 = some 7) :=
  ⟨by decide, mailbox_take_once_and_last_write_wins Mailbox.empty 1 2 5 7 9 (by decide)⟩

theorem tagsFetchTriggerEval_of_loading (s : TagsAppState) (h : s.isLoading = true) :
    tagsFetchTriggerEval s = (s, []) := by
  unfold tagsFetchTriggerEval
  rw [if_neg]
  simp [tagsShouldFetch, h]

theorem notesFetchTriggerEval_of_loading (s : NotesAppState) (mem : NotesMemory)
    (h : s.notesViewState.isLoading = true) :
    notesFetchTriggerEval s mem = (s, mem, []) := by
  unfold notesFetchTriggerEval
  rw [if_neg]
  simp [notesShouldFetch, h]

/-- C4: Request deduplication.  For each of the three cited trigger sites — the
tags view (tags.rs lines 342-346), the notes view (notes.rs lines 124-130) and
the element browser (element_browser_popover_content.rs lines 172-176) — any
sequence of `n` consecutive fetch-trigger evaluations performed while the
view's loading flag is set spawns no task at all, hence at most one. -/
theorem dedup_no_spawn_while_in_flight (n : Nat) (ts : TagsAppState)
    (ns : NotesAppState) (nmem : NotesMemory) (bs : BrowserState)
    (ht : ts.isLoading = true) (hn : ns.notesViewState.isLoading = true)
    (hb : bs.isLoadingElements = true) :
    (tagsTriggerRun n ts).2 = [] ∧
    (notesTriggerRun n ns nmem).2 = [] ∧
    (browserTriggerRun n bs).2 = [] ∧
    (tagsTriggerRun n ts).2.length ≤ 1 ∧
    (notesTriggerRun n ns nmem).2.length ≤ 1 ∧
    (browserTriggerRun n bs).2.length ≤ 1 := by
  have htags : ∀ m (s : TagsAppState), s.isLoading = true → (tagsTriggerRun m s).2 = [] := by
    intro m
    induction m with
    | zero => intro s _; rfl
    | succ m ih =>
      intro s hs
      unfold tagsTriggerRun
      rw [tagsFetchTriggerEval_of_loading s hs]
      have := ih s hs
      simp [this]
  have hnotes : ∀ m (s : NotesAppState) (mm : NotesMemory), s.notesViewState.isLoading = true →
      (notesTriggerRun m s mm).2 = [] := by
    intro m
    induction m with
    | zero => intro s mm _; rfl
    | succ m ih =>
      intro s mm hs
      unfold notesTriggerRun
      rw [notesFetchTriggerEval_of_loading s mm hs]
      have := ih s mm hs
      simp [this]
  have hbrowser : ∀ m (s : BrowserState), s.isLoadingElements = true →
      (browserTriggerRun m s).2 = [] := by
    intro m
    induction m with
    | zero => intro s _; rfl
    | succ m ih =>
      intro s hs
      obtain ⟨h1, h2, -, -⟩ := browserElementsFetchStep_of_loading s hs
      unfold browserTriggerRun
      rcases hp : browserElementsFetchStep s with ⟨s1, sp⟩
      rw [hp] at h1 h2
      have h1' : sp = none := h1
      have h2' : s1.isLoadingElements = true := h2
      subst h1'
      rcases hq : browserTriggerRun m s1 with ⟨s2, rest⟩
      have h3 : rest = [] := by
        have := ih s1 h2'
        rw [hq] at this
        exact this
      subst h3
      simp [hq]
  refine ⟨htags n ts ht, hnotes n ns nmem hn, hbrowser n bs hb, ?_, ?_, ?_⟩
  · rw [htags n ts ht]; simp
  · rw [hnotes n ns nmem hn]; simp
  · rw [hbrowser n bs hb]; simp

/-- Witness for C4: three evaluations on concrete in-flight states. -/
theorem dedup_no_spawn_while_in_flight_witness :
    ({ isLoading := true : TagsAppState }.isLoading = true) ∧
    ({ notesViewState := { isLoading := true } : NotesAppState }.notesViewState.isLoading = true) ∧
    ({ isLoadingElements := true : BrowserState }.isLoadingElements = true) ∧
    ((tagsTriggerRun 3 { isLoading := true }).2 = [] ∧
      (notesTriggerRun 3 { notesViewState := { isLoading := true } } {}).2 = [] ∧
      (browserTriggerRun 3 { isLoadingElements := true }).2 = [] ∧
      (tagsTriggerRun 3 { isLoading := true }).2.length ≤ 1 ∧
      (notesTriggerRun 3 { notesViewState := { isLoading := true } } {}).2.length ≤ 1 ∧
      (browserTriggerRun 3 { isLoadingElements := true }).2.length ≤ 1) :=
  ⟨rfl, rfl, rfl,
    dedup_no_spawn_while_in_flight 3 { isLoading := true }
      { notesViewState := { isLoading := true } } {} { isLoadingElements := true }
      rfl rfl rfl⟩

theorem notesFrame_err_delivery (s : NotesAppState) (mem : NotesMemory) (e : ApiError)
    (hload : s.notesViewState.isLoading = true)
    (hdep : mem.fetchResults s.notesViewState.currentPage = some (.err e))
    (hsave : mem.saveResult = none)
    (hflag : mem.noteDeletedIdFlag = none)
    (hsl : mem.notesSetLoading = false)
    (hst : s.notesViewState.noteEditorState.saveTriggered = false) :
    (notesFrame s mem none).1.notesViewState.error =
      some ("Failed to fetch notes: " ++ e.display) ∧
    (notesFrame s mem none).1.notesCache = none ∧
    (notesFrame s mem none).1.notesViewState.isLoading = false ∧
    (notesFrame s mem none).1.notesViewState.currentPage = 1 ∧
    (notesFrame s mem none).1.notesViewState.totalPages = 1 ∧
    (notesFrame s mem none).2.2 = [] := by
  unfold notesFrame notesProcessFetchResult notesProcessSaveResult notesProcessDeleteFlag
    notesFetchTriggerEval notesPaginationStep notesConsumeSetLoading notesEditorStep
    notesCloseRefetchStep
  simp [Mailbox.remove, hdep, hsave, hflag, hsl, hst, notesShouldFetch]

theorem elementsFrame_err_delivery (s : ElementsAppState) (mem : ElementsMemory)
    (cid : Int) (e : ApiError)
    (hcid : s.currentComponentIdViewing = some cid)
    (hload : s.elementsViewState.isLoading = true)
    (hdep : mem.fetchResults (cid, s.elementsViewState.currentPage) = some (.err e))
    (hnr : s.elementsViewState.needsRefreshAfterDelete = false)
    (hsl : mem.elementsSetLoading = false)
    (hst : s.elementsViewState.elementEditorState.saveTriggered = false) :
    (elementsFrame s mem none).1.elementsViewState.error =
      some ("Fetch failed: " ++ e.display) ∧
    (elementsFrame s mem none).1.currentElementsCache = none ∧
    (elementsFrame s mem none).1.elementsViewState.isLoading = false ∧
    (elementsFrame s mem none).1.elementsViewState.currentPage = 1 ∧
    (elementsFrame s mem none).1.elementsViewState.totalPages = 1 ∧
    (elementsFrame s mem none).2.2 = [] := by
  unfold elementsFrame elementsProcessFetchResult
  simp [hcid, Mailbox.remove, hdep, hnr, hsl, hst]

/-- C5: Failure-delivery transition.  In both cited views — notes (notes.rs
lines 33-53) and elements (signatures_elements.rs lines 80-107) — a frame of a
loading view that takes a matching-key failure result from the mailbox sets the
view's error descriptor, clears the cached data, clears the loading flag and
resets pagination to `current_page = 1`, `total_pages = 1` (and spawns
nothing). -/
theorem failure_delivery_transition (s : NotesAppState) (mem : NotesMemory) (e : ApiError)
    (es : ElementsAppState) (emem : ElementsMemory) (cid : Int) (e2 : ApiError)
    (hload : s.notesViewState.isLoading = true)
    (hdep : mem.fetchResults s.notesViewState.currentPage = some (.err e))
    (hsave : mem.saveResult = none)
    (hflag : mem.noteDeletedIdFlag = none)
    (hsl : mem.notesSetLoading = false)
    (hst : s.notesViewState.noteEditorState.saveTriggered = false)
    (hcid2 : es.currentComponentIdViewing = some cid)
    (hload2 : es.elementsViewState.isLoading = true)
    (hdep2 : emem.fetchResults (cid, es.elementsViewState.currentPage) = some (.err e2))
    (hnr2 : es.elementsViewState.needsRefreshAfterDelete = false)
    (hsl2 : emem.elementsSetLoading = false)
    (hst2 : es.elementsViewState.elementEditorState.saveTriggered = false) :
    ((notesFrame s mem none).1.notesViewState.error =
        some ("Failed to fetch notes: " ++ e.display) ∧
      (notesFrame s mem none).1.notesCache = none ∧
      (notesFrame s mem none).1.notesViewState.isLoading = false ∧
      (notesFrame s mem none).1.notesViewState.currentPage = 1 ∧
      (notesFrame s mem none).1.notesViewState.totalPages = 1) ∧
    ((elementsFrame es emem none).1.elementsViewState.error =
        some ("Fetch failed: " ++ e2.display) ∧
      (elementsFrame es emem none).1.currentElementsCache = none ∧
      (elementsFrame es emem none).1.elementsViewState.isLoading = false ∧
      (elementsFrame es emem none).1.elementsViewState.currentPage = 1 ∧
      (elementsFrame es emem none).1.elementsViewState.totalPages = 1) := by
  obtain ⟨a1, a2, a3, a4, a5, -⟩ :=
    notesFrame_err_delivery s mem e hload hdep hsave hflag hsl hst
  obtain ⟨b1, b2, b3, b4, b5, -⟩ :=
    elementsFrame_err_delivery es emem cid e2 hcid2 hload2 hdep2 hnr2 hsl2 hst2
  exact ⟨⟨a1, a2, a3, a4, a5⟩, ⟨b1, b2, b3, b4, b5⟩⟩

/-- Witness for C5: a loading notes view on page 2 receiving a network error
under key 2, and a loading elements view for component 7 on page 3 receiving a
409 error under key (7, 3). -/
theorem failure_delivery_transition_witness :
    (({ fetchResults := Mailbox.empty.insertTemp 2 (.err (.network "boom")) } :
        NotesMemory).fetchResults
      ({ notesViewState := { isLoading := true, currentPage := 2 } } :
        NotesAppState).notesViewState.currentPage = some (.err (.network "boom"))) ∧
    (({ fetchResults := Mailbox.empty.insertTemp (7, 3) (.err (.api 409 "conflict")) } :
        ElementsMemory).fetchResults
      (7, ({ currentComponentIdViewing := some 7
             elementsViewState := { isLoading := true, currentPage := 3 } } :
        ElementsAppState).elementsViewState.currentPage) = some (.err (.api 409 "conflict"))) ∧
    (((notesFrame { notesViewState := { isLoading := true, currentPage := 2 } }
          { fetchResults := Mailbox.empty.insertTemp 2 (.err (.network "boom")) }
          none).1.notesViewState.error =
        some ("Failed to fetch notes: " ++ (ApiError.network "boom").display) ∧
      (notesFrame { notesViewState := { isLoading := true, currentPage := 2 } }
          { fetchResults := Mailbox.empty.insertTemp 2 (.err (.network "boom")) }
          none).1.notesCache = none ∧
      (notesFrame { notesViewState := { isLoading := true, currentPage := 2 } }
          { fetchResults := Mailbox.empty.insertTemp 2 (.err (.network "boom")) }
          none).1.notesViewState.isLoading = false ∧
      (notesFrame { notesViewState := { isLoading := true, currentPage := 2 } }
          { fetchResults := Mailbox.empty.insertTemp 2 (.err (.network "boom")) }
          none).1.notesViewState.currentPage = 1 ∧
      (notesFrame { notesViewState := { isLoading := true, currentPage := 2 } }
          { fetchResults := Mailbox.empty.insertTemp 2 (.err (.network "boom")) }
          none).1.notesViewState.totalPages = 1) ∧
    ((elementsFrame
          { currentComponentIdViewing := some 7
            elementsViewState := { isLoading := true, currentPage := 3 } }
          { fetchResults := Mailbox.empty.insertTemp (7, 3) (.err (.api 409 "conflict")) }
          none).1.elementsViewState.error =
        some ("Fetch failed: " ++ (ApiError.api 409 "conflict").display) ∧
      (elementsFrame
          { currentComponentIdViewing := some 7
            elementsViewState := { isLoading := true, currentPage := 3 } }
          { fetchResults := Mailbox.empty.insertTemp (7, 3) (.err (.api 409 "conflict")) }
          none).1.currentElementsCache = none ∧
      (elementsFrame
          { currentComponentIdViewing := some 7
            elementsViewState := { isLoading := true, currentPage := 3 } }
          { fetchResults := Mailbox.empty.insertTemp (7, 3) (.err (.api 409 "conflict")) }
          none).1.elementsViewState.isLoading = false ∧
      (elementsFrame
          { currentComponentIdViewing := some 7
            elementsViewState := { isLoading := true, currentPage := 3 } }
          { fetchResults := Mailbox.empty.insertTemp (7, 3) (.err (.api 409 "conflict")) }
          none).1.elementsViewState.currentPage = 1 ∧
      (elementsFrame
          { currentComponentIdViewing := some 7
            elementsViewState := { isLoading := true, currentPage := 3 } }
          { fetchResults := Mailbox.empty.insertTemp (7, 3) (.err (.api 409 "conflict")) }
          none).1.elementsViewState.totalPages = 1)) :=
  ⟨by decide, by decide,
    failure_delivery_transition
      { notesViewState := { isLoading := true, currentPage := 2 } }
      { fetchResults := Mailbox.empty.insertTemp 2 (.err (.network "boom")) }
      (.network "boom")
      { currentComponentIdViewing := some 7
        elementsViewState := { isLoading := true, currentPage := 3 } }
      { fetchResults := Mailbox.empty.insertTemp (7, 3) (.err (.api 409 "conflict")) }
      7 (.api 409 "conflict")
      rfl (by decide) rfl rfl rfl rfl rfl rfl (by decide) rfl rfl rfl⟩

/-- The C6 scenario's initial state: a loaded notes view showing two notes on
page 1 of 3, with an auth token present. -/
def notesC6State : NotesAppState :=
  { notesCache := some [{ noteId := some 1, title := "A" }, { noteId := some 2, title := "B" }]
    notesViewState := { isLoading := false, currentPage := 1, totalPages := 3 }
    authToken := some "tk" }

/-- The frame in which the user clicks page 2. -/
def notesC6Frame1 : NotesAppState × NotesMemory × List NotesSpawn :=
  notesFrame notesC6State {} (some (.pageChange 2))

/-- The page-2 fetch task completes with a network error and deposits under
key 2 (notes.rs lines 504-505). -/
def notesC6MemAfterDeposit : NotesMemory :=
  applyNotesDeposit notesC6Frame1.2.1 (.fetchResult 2 (.err (.network "net")))

/-- Three further idle frames after the deposit. -/
def notesC6Run2 : NotesAppState × NotesMemory × List NotesSpawn :=
  notesFrame notesC6Frame1.1 notesC6MemAfterDeposit none

def notesC6Run3 : NotesAppState × NotesMemory × List NotesSpawn :=
  notesFrame notesC6Run2.1 notesC6Run2.2.1 none

def notesC6Run4 : NotesAppState × NotesMemory × List NotesSpawn :=
  notesFrame notesC6Run3.1 notesC6Run3.2.1 none

/-- C6: evaluation of the page-change scenario on the code.  The page-2 click
does put the view into Loading and spawns a fetch whose mailbox key is page 2 —
but the deposited `Err(NetworkError)` for page 2 is **never consumed**: the
view's take key is built from `current_page`, which is still 1 (notes.rs line
29), so three frames after the deposit the view is still loading with no error,
the page-2 entry still sits in the mailbox, and no transition to the Error
state (with pages reset to 1/1) ever happens. -/
theorem notes_page_change_result_never_consumed :
    notesC6Frame1.2.2 = [.fetchNotes 2] ∧
    notesC6Frame1.1.notesViewState.isLoading = true ∧
    notesC6Frame1.1.notesViewState.currentPage = 1 ∧
    notesC6Run4.1.notesViewState.isLoading = true ∧
    notesC6Run4.1.notesViewState.error = none ∧
    notesC6Run4.1.notesCache =
      some [{ noteId := some 1, title := "A" }, { noteId := some 2, title := "B" }] ∧
    notesC6Run4.1.notesViewState.currentPage = 1 ∧
    notesC6Run4.2.1.fetchResults 2 = some (.err (.network "net")) ∧
    notesC6Run2.2.2 = [] ∧ notesC6Run3.2.2 = [] ∧ notesC6Run4.2.2 = [] := by
  decide

/-- The C7 scenario's initial state: a loaded notes view on page 2 of 3 with
the editor dialog open on a valid note titled "T". -/
def notesC7State : NotesAppState :=
  { notesCache := some [{ noteId := some 1, title := "A" }]
    notesViewState := { isLoading := false, currentPage := 2, totalPages := 3
                        isEditorOpen := true, noteEditorState := { title := "T" } }
    authToken := some "tk" }

/-- Frame in which the user clicks save. -/
def notesC7Frame1 : NotesAppState × NotesMemory × List NotesSpawn :=
  notesFrame notesC7State {} (some .saveClick)

/-- Frame after the save task deposits success. -/
def notesC7Frame2 : NotesAppState × NotesMemory × List NotesSpawn :=
  notesFrame notesC7Frame1.1
    (applyNotesDeposit notesC7Frame1.2.1 (.saved (.ok { noteId := some 9, title := "T" }))) none

/-- Frame in which the user closes the editor dialog. -/
def notesC7Frame3 : NotesAppState × NotesMemory × List NotesSpawn :=
  notesFrame notesC7Frame2.1 notesC7Frame2.2.1 (some .closeEditor)

/-- C7 counterexample: with the notes list on page 2, closing the editor after
a successful save triggers a refetch of page **1**, not of the list's current
page — `trigger_notes_fetch` (notes.rs lines 456-467) always fetches page 1 —
so the claim's "refetch of the owning list at its current page" is false at
this input. -/
theorem notes_save_close_refetches_page1_not_current :
    notesC7Frame3.1.notesViewState.currentPage = 2 ∧
    notesC7Frame3.2.2 = [.fetchNotes 1] ∧
    NotesSpawn.fetchNotes 2 ∉ notesC7Frame3.2.2 := by
  decide


/-- Family of initial states for the amended C7 property: a loaded notes view
on an arbitrary current page with the editor open on a note. -/
def notesC7GenState (page : Nat) (cache : List NoteWithDetails) (editId : Option Int)
    (title : String) : NotesAppState :=
  { notesCache := some cache
    notesViewState := { isLoading := false, currentPage := page, totalPages := 3
                        isEditorOpen := true, editingNoteId := editId
                        noteEditorState := { title := title } }
    authToken := some "tk" }

/-- Save click frame. -/
def notesC7GenFrame1 (page : Nat) (cache : List NoteWithDetails) (editId : Option Int)
    (title : String) : NotesAppState × NotesMemory × List NotesSpawn :=
  notesFrame (notesC7GenState page cache editId title) {} (some .saveClick)

/-- Frame after a failure deposit from the save task. -/
def notesC7GenFail2 (page : Nat) (cache : List NoteWithDetails) (editId : Option Int)
    (title : String) (e : ApiError) : NotesAppState × NotesMemory × List NotesSpawn :=
  notesFrame (notesC7GenFrame1 page cache editId title).1
    (applyNotesDeposit (notesC7GenFrame1 page cache editId title).2.1 (.saved (.err e))) none

/-- Closing the dialog after the failed save. -/
def notesC7GenFail3 (page : Nat) (cache : List NoteWithDetails) (editId : Option Int)
    (title : String) (e : ApiError) : NotesAppState × NotesMemory × List NotesSpawn :=
  notesFrame (notesC7GenFail2 page cache editId title e).1
    (notesC7GenFail2 page cache editId title e).2.1 (some .closeEditor)

/-- Frame after a success deposit from the save task. -/
def notesC7GenOk2 (page : Nat) (cache : List NoteWithDetails) (editId : Option Int)
    (title : String) (v : NoteWithDetails) : NotesAppState × NotesMemory × List NotesSpawn :=
  notesFrame (notesC7GenFrame1 page cache editId title).1
    (applyNotesDeposit (notesC7GenFrame1 page cache editId title).2.1 (.saved (.ok v))) none

/-- Closing the dialog after the successful save. -/
def notesC7GenOk3 (page : Nat) (cache : List NoteWithDetails) (editId : Option Int)
    (title : String) (v : NoteWithDetails) : NotesAppState × NotesMemory × List NotesSpawn :=
  notesFrame (notesC7GenOk2 page cache editId title v).1
    (notesC7GenOk2 page cache editId title v).2.1 (some .closeEditor)

/-- The idle frame following the close. -/
def notesC7GenOk4 (page : Nat) (cache : List NoteWithDetails) (editId : Option Int)
    (title : String) (v : NoteWithDetails) : NotesAppState × NotesMemory × List NotesSpawn :=
  notesFrame (notesC7GenOk3 page cache editId title v).1
    (notesC7GenOk3 page cache editId title v).2.1 none

set_option maxHeartbeats 2000000 in
/-- C7 amended: for the notes editor dialog on any current page, clicking save
with valid input (non-blank title, no validation errors) immediately sets the
editor's saving flag and the sticky `save_triggered` flag and spawns the save
task; a failure deposit unsets the sticky flag (and sets the editor error), so
closing the dialog afterwards triggers no refetch; after a success deposit,
closing the dialog triggers exactly one refetch — of **page 1**
(`trigger_notes_fetch`, notes.rs lines 456-467), not of the list's current
page — and resets the flag so the following frame spawns nothing. -/
theorem notes_editor_save_then_refetch_page1 (page : Nat) (cache : List NoteWithDetails)
    (editId : Option Int) (title : String) (e : ApiError) (v : NoteWithDetails)
    (htitle : strTrim title ≠ "") :
    ((notesC7GenFrame1 page cache editId title).1.notesViewState.noteEditorState.isLoading =
        true ∧
      (notesC7GenFrame1 page cache editId title).1.notesViewState.noteEditorState.saveTriggered =
        true ∧
      (notesC7GenFrame1 page cache editId title).2.2 = [.saveNote editId title]) ∧
    ((notesC7GenFail2 page cache editId title e).1.notesViewState.noteEditorState.saveTriggered =
        false ∧
      (notesC7GenFail2 page cache editId title e).1.notesViewState.noteEditorState.isLoading =
        false ∧
      (notesC7GenFail2 page cache editId title e).1.notesViewState.noteEditorState.error =
        some ("Save failed: " ++ e.display) ∧
      (notesC7GenFail3 page cache editId title e).2.2 = []) ∧
    ((notesC7GenOk2 page cache editId title v).1.notesViewState.noteEditorState.error = none ∧
      (notesC7GenOk2 page cache editId title v).1.notesViewState.noteEditorState.saveTriggered =
        true ∧
      (notesC7GenOk3 page cache editId title v).2.2 = [.fetchNotes 1] ∧
      (notesC7GenOk3 page cache editId title v).1.notesViewState.noteEditorState.saveTriggered =
        false ∧
      (notesC7GenOk4 page cache editId title v).2.2 = []) := by
  unfold notesC7GenOk4 notesC7GenOk3 notesC7GenOk2 notesC7GenFail3 notesC7GenFail2
    notesC7GenFrame1 notesC7GenState notesFrame notesProcessFetchResult notesProcessSaveResult
    notesProcessDeleteFlag notesFetchTriggerEval notesPaginationStep notesConsumeSetLoading
    notesEditorStep notesCloseRefetchStep triggerNoteSave triggerNotesFetch
    triggerNotesFetchPaginated applyNotesDeposit
  simp [Mailbox.remove, Mailbox.empty, htitle, notesShouldFetch]

/-- Witness for the amended C7 at page 2 with a concrete note and error. -/
theorem notes_editor_save_then_refetch_page1_witness :
    strTrim "T" ≠ "" ∧
    (notesC7GenOk3 2 [{ noteId := some 1, title := "A" }] none "T"
        { noteId := some 9, title := "T" }).2.2 = [.fetchNotes 1] ∧
    (notesC7GenFail2 2 [{ noteId := some 1, title := "A" }] none "T"
        (.network "x")).1.notesViewState.noteEditorState.saveTriggered = false :=
  ⟨by decide,
    (notes_editor_save_then_refetch_page1 2 [{ noteId := some 1, title := "A" }] none "T"
      (.network "x") { noteId := some 9, title := "T" } (by decide)).2.2.2.2.1,
    (notes_editor_save_then_refetch_page1 2 [{ noteId := some 1, title := "A" }] none "T"
      (.network "x") { noteId := some 9, title := "T" } (by decide)).2.1.1⟩

/-- `trigger_note_delete` (notes.rs lines 557-587): without a token only a
toast is shown; otherwise the `notes_set_loading` flag is set and the delete
task is spawned (its completion later deposits the result under the note's key
plus the `note_deleted_id_flag` marker, lines 581-584). -/
def triggerNoteDelete (noteId : Int) (token : Option String) (mem : NotesMemory) :
    NotesMemory × List NotesSpawn :=
  match token with
  | none => (mem, [])
  | some _ => ({ mem with notesSetLoading := true }, [.deleteNote noteId])

/-- Family of initial states for C8: a loaded notes view on an arbitrary
current page. -/
def notesC8GenState (page : Nat) (cache : List NoteWithDetails) : NotesAppState :=
  { notesCache := some cache
    notesViewState := { isLoading := false, currentPage := page, totalPages := 3 }
    authToken := some "tk" }

/-- The frame after the delete click (consumes the set-loading flag). -/
def notesC8GenFrame1 (page : Nat) (cache : List NoteWithDetails) (noteId : Int) :
    NotesAppState × NotesMemory × List NotesSpawn :=
  notesFrame (notesC8GenState page cache) (triggerNoteDelete noteId (some "tk") {}).1 none

/-- The frame after the delete task deposits `Ok` plus the marker. -/
def notesC8GenOkFrame2 (page : Nat) (cache : List NoteWithDetails) (noteId : Int)
    (g : GenericMessageResponse) : NotesAppState × NotesMemory × List NotesSpawn :=
  notesFrame (notesC8GenFrame1 page cache noteId).1
    (applyNotesDeposit (notesC8GenFrame1 page cache noteId).2.1
      (.deleteComplete noteId (.ok g))) none

/-- The idle frame following the `Ok` processing. -/
def notesC8GenOkFrame3 (page : Nat) (cache : List NoteWithDetails) (noteId : Int)
    (g : GenericMessageResponse) : NotesAppState × NotesMemory × List NotesSpawn :=
  notesFrame (notesC8GenOkFrame2 page cache noteId g).1
    (notesC8GenOkFrame2 page cache noteId g).2.1 none

/-- The frame after the delete task deposits `Err` plus the marker. -/
def notesC8GenErrFrame2 (page : Nat) (cache : List NoteWithDetails) (noteId : Int)
    (e : ApiError) : NotesAppState × NotesMemory × List NotesSpawn :=
  notesFrame (notesC8GenFrame1 page cache noteId).1
    (applyNotesDeposit (notesC8GenFrame1 page cache noteId).2.1
      (.deleteComplete noteId (.err e))) none

/-- The idle frame following the `Err` processing. -/
def notesC8GenErrFrame3 (page : Nat) (cache : List NoteWithDetails) (noteId : Int)
    (e : ApiError) : NotesAppState × NotesMemory × List NotesSpawn :=
  notesFrame (notesC8GenErrFrame2 page cache noteId e).1
    (notesC8GenErrFrame2 page cache noteId e).2.1 none

/-- C8 counterexample: with the notes list on page 2, the frame that consumes
the delete completion marker for note 5 with an `Ok` result triggers a refetch
of page **1** (`trigger_notes_fetch`, notes.rs lines 456-467 via line 84), not
of the list's current page — so the claim's "triggers a refetch of the current
page of the list" is false at this input. -/
theorem notes_delete_refetches_page1_not_current :
    (notesC8GenOkFrame2 2 [{ noteId := some 1, title := "A" }] 5 { message := "deleted" }).1.notesViewState.currentPage = 2 ∧
    (notesC8GenOkFrame2 2 [{ noteId := some 1, title := "A" }] 5 { message := "deleted" }).2.2 =
      [.fetchNotes 1] ∧
    NotesSpawn.fetchNotes 2 ∉
      (notesC8GenOkFrame2 2 [{ noteId := some 1, title := "A" }] 5 { message := "deleted" }).2.2 := by
  decide

set_option maxHeartbeats 2000000 in
/-- C8 amended: for the notes delete flow, the completing task deposits both
the result and the `note_deleted_id_flag` completion marker; on a subsequent
frame the view consumes the marker (and the stored result) exactly once — the
following frame finds no marker and spawns nothing; if the result is `Ok` it
triggers exactly one refetch spawn, of **page 1** rather than the current
page; if the result is an error, the cached list is left untouched, the view's
error field is set, the loading flag is cleared, and no refetch is spawned. -/
theorem notes_delete_marker_consumed_once_and_page1_refetch (page : Nat)
    (cache : List NoteWithDetails) (noteId : Int) (g : GenericMessageResponse) (e : ApiError) :
    (triggerNoteDelete noteId (some "tk") ({} : NotesMemory)).2 = [.deleteNote noteId] ∧
    (notesC8GenFrame1 page cache noteId).1.notesViewState.isLoading = true ∧
    (notesC8GenOkFrame2 page cache noteId g).2.2 = [.fetchNotes 1] ∧
    (notesC8GenOkFrame2 page cache noteId g).2.1.noteDeletedIdFlag = none ∧
    (notesC8GenOkFrame2 page cache noteId g).2.1.deleteResults noteId = none ∧
    (notesC8GenOkFrame2 page cache noteId g).1.notesCache = some cache ∧
    (notesC8GenOkFrame3 page cache noteId g).2.2 = [] ∧
    (notesC8GenErrFrame2 page cache noteId e).1.notesCache = some cache ∧
    (notesC8GenErrFrame2 page cache noteId e).1.notesViewState.error =
      some ("Failed to delete note: " ++ e.display) ∧
    (notesC8GenErrFrame2 page cache noteId e).1.notesViewState.isLoading = false ∧
    (notesC8GenErrFrame2 page cache noteId e).2.2 = [] ∧
    (notesC8GenErrFrame2 page cache noteId e).2.1.noteDeletedIdFlag = none ∧
    (notesC8GenErrFrame3 page cache noteId e).2.2 = [] := by
  unfold notesC8GenErrFrame3 notesC8GenErrFrame2 notesC8GenOkFrame3 notesC8GenOkFrame2
    notesC8GenFrame1 notesC8GenState notesFrame notesProcessFetchResult notesProcessSaveResult
    notesProcessDeleteFlag notesFetchTriggerEval notesPaginationStep notesConsumeSetLoading
    notesEditorStep notesCloseRefetchStep triggerNoteDelete triggerNotesFetch
    triggerNotesFetchPaginated applyNotesDeposit
  simp [Mailbox.remove, Mailbox.empty, Mailbox.insertTemp, notesShouldFetch]

theorem resolveBatch_single (resolver : Int → RustResult SignatureElement ApiError)
    (tok : Option String) (p : IdSequence) (hp : p ≠ []) :
    resolveBatch resolver tok [p] =
      [(p, String.intercalate " / " (resolvePathParts resolver tok p))] := by
  simp [resolveBatch, List.isEmpty_iff, hp]

theorem cacheLookup_extend_batch (resolver : Int → RustResult SignatureElement ApiError)
    (tok : Option String) (p : IdSequence) (cache : ResolvedPathsCache) (hp : p ≠ []) :
    cacheLookup (cacheExtend cache (resolveBatch resolver tok [p])) p =
      some (String.intercalate " / " (resolvePathParts resolver tok p)) := by
  rw [resolveBatch_single resolver tok p hp]
  simp [cacheExtend, cacheLookup]

theorem pathsToResolve_not_mem (sigs : List IdSequence) (cache : ResolvedPathsCache)
    (p : IdSequence) (d : String) (h : cacheLookup cache p = some d) :
    p ∉ pathsToResolve sigs cache := by
  intro hmem
  rw [pathsToResolve, List.mem_filter] at hmem
  rw [h] at hmem
  simp at hmem

theorem getMany_cached (p : IdSequence) (cache : ResolvedPathsCache) (d : String)
    (h : cacheLookup cache p = some d) : getMany [p] cache = [] := by
  simp [getMany, h]

theorem selectorResolveStep_no_lookup (sigs : List IdSequence) (cache : ResolvedPathsCache)
    (st : SignatureSelectorState) (p : IdSequence) (d : String)
    (h : cacheLookup cache p = some d) :
    ∀ l, (selectorResolveStep sigs cache st).2 = some l → p ∉ l := by
  intro l hsp
  unfold selectorResolveStep at hsp
  by_cases hc : pathsToResolve sigs cache ≠ [] ∧ st.isResolving = false
  · rw [if_pos hc] at hsp
    simp at hsp
    subst hsp
    exact pathsToResolve_not_mem sigs cache p d h
  · rw [if_neg hc] at hsp
    simp at hsp

/-- C9: Resolved-path cache idempotence.  After a resolve of a non-empty
id-path `p` completes (in particular a fully successful one) and its display
string is merged into the shared cache (`cache.extend`, signature_selector.rs
lines 84-88), the cache answers for `p`, the set of still-unresolved paths
(`paths_to_resolve`, lines 112-118) no longer contains `p` for any signature
list, `get_many` returns the empty unresolved set for that key, and no render's
resolve step ever spawns a batch containing `p` again. -/
theorem resolved_path_cache_idempotent (resolver : Int → RustResult SignatureElement ApiError)
    (tk : String) (p : IdSequence) (cache : ResolvedPathsCache) (sigs : List IdSequence)
    (st : SignatureSelectorState)
    (hp : p ≠ [])
    (hok : ∀ elementId ∈ p, (resolver elementId).isOk = true) :
    cacheLookup (cacheExtend cache (resolveBatch resolver (some tk) [p])) p =
      some (String.intercalate " / " (resolvePathParts resolver (some tk) p)) ∧
    p ∉ pathsToResolve sigs (cacheExtend cache (resolveBatch resolver (some tk) [p])) ∧
    getMany [p] (cacheExtend cache (resolveBatch resolver (some tk) [p])) = [] ∧
    ∀ l, (selectorResolveStep sigs (cacheExtend cache (resolveBatch resolver (some tk) [p]))
        st).2 = some l → p ∉ l := by
  have hl := cacheLookup_extend_batch resolver (some tk) p cache hp
  exact ⟨hl, pathsToResolve_not_mem sigs _ p _ hl, getMany_cached p _ _ hl,
    selectorResolveStep_no_lookup sigs _ st p _ hl⟩

/-- Witness for C9: path `[1, 2]` resolved by an always-successful resolver. -/
theorem resolved_path_cache_idempotent_witness :
    ([1, 2] : IdSequence) ≠ [] ∧
    (∀ elementId ∈ ([1, 2] : IdSequence),
      ((fun i => RustResult.ok { signatureElementId := some i, name := "El", index := none }
          : Int → RustResult SignatureElement ApiError) elementId).isOk = true) ∧
    (cacheLookup
        (cacheExtend []
          (resolveBatch
            (fun i => RustResult.ok { signatureElementId := some i, name := "El", index := none })
            (some "tk") [[1, 2]])) [1, 2] =
      some (String.intercalate " / "
        (resolvePathParts
          (fun i => RustResult.ok { signatureElementId := some i, name := "El", index := none })
          (some "tk") [1, 2])) ∧
    getMany [[1, 2]]
        (cacheExtend []
          (resolveBatch
            (fun i => RustResult.ok { signatureElementId := some i, name := "El", index := none })
            (some "tk") [[1, 2]])) = []) :=
  ⟨by decide, by decide,
    (resolved_path_cache_idempotent
      (fun i => RustResult.ok { signatureElementId := some i, name := "El", index := none })
      "tk" [1, 2] [] [[1, 2]] {} (by decide) (by decide)).1,
    (resolved_path_cache_idempotent
      (fun i => RustResult.ok { signatureElementId := some i, name := "El", index := none })
      "tk" [1, 2] [] [[1, 2]] {} (by decide) (by decide)).2.2.1⟩

theorem errPlaceholder_mem_parts (resolver : Int → RustResult SignatureElement ApiError)
    (tk : String) (elementId : Int) (e : ApiError) :
    ∀ p : List Int, elementId ∈ p → resolver elementId = .err e →
      errPlaceholder elementId ∈ resolvePathParts resolver (some tk) p := by
  intro p
  induction p with
  | nil => simp
  | cons a rest ih =>
    intro hmem herr
    rcases List.mem_cons.mp hmem with h | h
    · subst h
      simp [resolvePathParts, herr]
    · simp only [resolvePathParts]
      exact List.mem_cons_of_mem _ (ih h herr)

/-- C10 (implicit): failed path resolutions are cached permanently and never
retried.  When a per-element lookup inside a non-empty id-path fails, the
resolve task still inserts a display string for the whole path — containing the
`[ErrID:id]` placeholder for the failed element (signature_selector.rs lines
139-155) — and once merged into the shared cache the path is excluded from
`paths_to_resolve` of every future render, so no resolve batch ever contains it
again for the lifetime of the cache. -/
theorem failed_path_resolution_cached_permanently
    (resolver : Int → RustResult SignatureElement ApiError) (tk : String)
    (p : IdSequence) (cache : ResolvedPathsCache) (elementId : Int) (e : ApiError)
    (hid : elementId ∈ p) (herr : resolver elementId = .err e) (hp : p ≠ []) :
    errPlaceholder elementId ∈ resolvePathParts resolver (some tk) p ∧
    cacheLookup (cacheExtend cache (resolveBatch resolver (some tk) [p])) p =
      some (String.intercalate " / " (resolvePathParts resolver (some tk) p)) ∧
    (∀ sigs : List IdSequence,
      p ∉ pathsToResolve sigs (cacheExtend cache (resolveBatch resolver (some tk) [p]))) ∧
    ∀ (sigs : List IdSequence) (st : SignatureSelectorState) (l : List IdSequence),
      (selectorResolveStep sigs (cacheExtend cache (resolveBatch resolver (some tk) [p]))
        st).2 = some l → p ∉ l := by
  have hl := cacheLookup_extend_batch resolver (some tk) p cache hp
  refine ⟨errPlaceholder_mem_parts resolver tk elementId e p hid herr, hl, ?_, ?_⟩
  · intro sigs
    exact pathsToResolve_not_mem sigs _ p _ hl
  · intro sigs st l
    exact selectorResolveStep_no_lookup sigs _ st p _ hl l

/-- Witness for C10: path `[1, 2]` whose element 2 fails to resolve. -/
theorem failed_path_resolution_cached_permanently_witness :
    (2 : Int) ∈ ([1, 2] : IdSequence) ∧
    ((fun i => if i = 1 then RustResult.ok
          { signatureElementId := some 1, name := "El", index := none }
        else RustResult.err (ApiError.network "boom")
        : Int → RustResult SignatureElement ApiError) 2 = .err (.network "boom")) ∧
    ([1, 2] : IdSequence) ≠ [] ∧
    (errPlaceholder 2 ∈ resolvePathParts
        (fun i => if i = 1 then RustResult.ok
            { signatureElementId := some 1, name := "El", index := none }
          else RustResult.err (ApiError.network "boom"))
        (some "tk") [1, 2] ∧
      ∀ sigs : List IdSequence,
        ([1, 2] : IdSequence) ∉ pathsToResolve sigs
          (cacheExtend []
            (resolveBatch
              (fun i => if i = 1 then RustResult.ok
                  { signatureElementId := some 1, name := "El", index := none }
                else RustResult.err (ApiError.network "boom"))
              (some "tk") [[1, 2]]))) :=
  ⟨by decide, by decide, by decide,
    (failed_path_resolution_cached_permanently
      (fun i => if i = 1 then RustResult.ok
          { signatureElementId := some 1, name := "El", index := none }
        else RustResult.err (ApiError.network "boom"))
      "tk" [1, 2] [] 2 (.network "boom") (by decide) (by decide) (by decide)).1,
    (failed_path_resolution_cached_permanently
      (fun i => if i = 1 then RustResult.ok
          { signatureElementId := some 1, name := "El", index := none }
        else RustResult.err (ApiError.network "boom"))
      "tk" [1, 2] [] 2 (.network "boom") (by decide) (by decide) (by decide)).2.2.1⟩

/-- C2: Fetch-issuance invariant of the in-flight guard.  In every execution of
the element browser starting from the default popover state — any interleaving
of render frames, user interactions and task deposits — a frame spawns a new
element-fetch task if and only if the current dependency tuple differs from the
tuple captured at the time of the last issued fetch AND `is_loading_elements`
is false. -/
theorem browser_fetch_issuance_iff (evs : List BrowserEvent) :
    browserRunConforms browserSysInit evs = true :=
  browserRunConforms_of_inv evs browserSysInit browserSysInit_inv

/-- The C1 scenario's initial state: an element fetch for dependency tuple
F1 = (Hierarchical, no parent, component "1", search "a") is in flight, the
recorded hash is F1, and one element is currently listed. -/
def browserC1State : BrowserState :=
  { mode := .hierarchical
    selectedComponentId := "1"
    currentPathElements := []
    availableComponents := [{ signatureComponentId := some 1, name := "CompA" },
      { signatureComponentId := some 2, name := "CompB" }]
    availableElements := [{ signatureElementId := some 10, name := "Root", index := none }]
    searchTerm := "a"
    debouncedSearchTerm := "a"
    lastSearchUpdate := 0
    isLoadingComponents := false
    isLoadingElements := true
    error := none
    isCreateDialogOpen := false
    lastFetchDependenciesHash :=
      some { mode := .hierarchical, lastElementId := none, filterComponentId := "1"
             searchText := "a" } }

/-- Frame in which the user switches the component filter to "2" — the
dependency fingerprint changes to F2 while F1's fetch is still in flight. -/
def browserC1Out1 : BrowserFrameOut :=
  browserFrame browserC1State none none 1000 (some (.selectComponent "2"))

/-- Next frame: the hash records F2, but the in-flight guard suppresses the
fetch. -/
def browserC1Out2 : BrowserFrameOut :=
  browserFrame browserC1Out1.persisted none none 1016 none

/-- Frame in which F1's stale result (element "Stale") is delivered in the
fixed `browser_fetch_elements_result` slot. -/
def browserC1Out3 : BrowserFrameOut :=
  browserFrame browserC1Out2.persisted none
    (some (.ok [{ signatureElementId := some 99, name := "Stale", index := none }])) 1032 none

/-- One more idle frame. -/
def browserC1Out4 : BrowserFrameOut :=
  browserFrame browserC1Out3.persisted none none 1048 none

/-- C1 counterexample: with F1 in flight and the fingerprint changed to F2,
F1's result **is** taken by the view's lookup (the slot key is the fixed id,
not fingerprinted: after the delivery frame the slot is empty, and the result
was applied to the in-memory copy, whose element list became the stale list),
and **no** fetch for F2 is issued — not in the change frame, the recording
frame, the delivery frame, nor afterwards, the view remaining marked loading.
This falsifies the claim's "never taken by the current lookup because the
fingerprint is part of the mailbox key — and a fetch for F2 is issued". -/
theorem browser_stale_result_is_taken_and_no_f2_fetch :
    browserC1Out3.elemsSlot = none ∧
    browserC1Out3.midPersisted.availableElements =
      [{ signatureElementId := some 99, name := "Stale", index := none }] ∧
    browserC1Out1.elemsSpawn = none ∧
    browserC1Out2.elemsSpawn = none ∧
    browserC1Out3.elemsSpawn = none ∧
    browserC1Out4.elemsSpawn = none ∧
    browserC1Out4.persisted.isLoadingElements = true := by
  decide

/-- C1 amended: while an element fetch is in flight, a frame that finds a
result in the fixed `browser_fetch_elements_result` slot **takes** it (the slot
is emptied) and applies it to the in-memory state copy (lines 102-119), but the
end-of-frame `insert_persisted` (line 447) stores the pre-delivery local clone,
so the view's element list and error are left unchanged and the loading flag
stays set; no element fetch is spawned in this frame, nor in any later frame
from the resulting state — in particular no fetch for the changed fingerprint
F2 is ever issued.  (Hypotheses: the debounce is quiescent and the components
fetch guard does not fire, so those steps cannot touch the error field.) -/
theorem browser_stale_result_taken_but_clobbered_no_refetch
    (s : BrowserState) (r : FetchElementsResult) (t : Int)
    (hL : s.isLoadingElements = true)
    (hDeb : s.searchTerm = s.debouncedSearchTerm)
    (hComps : ¬(s.availableComponents = [] ∧ s.isLoadingComponents = false)) :
    (browserFrame s none (some r) t none).persisted.availableElements = s.availableElements ∧
    (browserFrame s none (some r) t none).persisted.error = s.error ∧
    (browserFrame s none (some r) t none).persisted.isLoadingElements = true ∧
    (browserFrame s none (some r) t none).elemsSpawn = none ∧
    (browserFrame s none (some r) t none).elemsSlot = none ∧
    (browserFrame s none (some r) t none).midPersisted = browserApplyElementsResult s r ∧
    ∀ (cs' : Option FetchComponentsResult) (es' : Option FetchElementsResult) (t' : Int)
      (ev' : Option BrowserUiEvent),
      (browserFrame (browserFrame s none (some r) t none).persisted cs' es' t' ev').elemsSpawn =
        none := by
  have hd := browserDebounceStep_of_eq s t hDeb
  have hc := browserComponentsFetchStep_of_guard s hComps
  obtain ⟨h1, h2, h3, h4⟩ := browserElementsFetchStep_of_loading s hL
  rcases hp : browserElementsFetchStep s with ⟨s1, sp⟩
  rw [hp] at h1 h2 h3 h4
  have h1' : sp = none := h1
  have h2' : s1.isLoadingElements = true := h2
  have h3' : s1.availableElements = s.availableElements := h3
  have h4' : s1.error = s.error := h4
  subst h1'
  unfold browserFrame
  simp only [hd, hc, hp]
  refine ⟨h3', h4', h2', trivial, trivial, trivial, ?_⟩
  intro cs' es' t' ev'
  exact (browserFrame_isLoadingElements_of_loading s1 cs' es' t' ev' h2').2

/-- Witness for the amended C1 at the concrete C1 scenario state. -/
theorem browser_stale_result_taken_but_clobbered_no_refetch_witness :
    browserC1State.isLoadingElements = true ∧
    browserC1State.searchTerm = browserC1State.debouncedSearchTerm ∧
    ¬(browserC1State.availableComponents = [] ∧ browserC1State.isLoadingComponents = false) ∧
    ((browserFrame browserC1State none
        (some (.ok [{ signatureElementId := some 99, name := "Stale", index := none }]))
        1032 none).persisted.availableElements = browserC1State.availableElements ∧
      (browserFrame browserC1State none
        (some (.ok [{ signatureElementId := some 99, name := "Stale", index := none }]))
        1032 none).elemsSpawn = none ∧
      (browserFrame browserC1State none
        (some (.ok [{ signatureElementId := some 99, name := "Stale", index := none }]))
        1032 none).elemsSlot = none) :=
  ⟨by decide, by decide, by decide,
    (browser_stale_result_taken_but_clobbered_no_refetch browserC1State
      (.ok [{ signatureElementId := some 99, name := "Stale", index := none }]) 1032
      (by decide) (by decide) (by decide)).1,
    (browser_stale_result_taken_but_clobbered_no_refetch browserC1State
      (.ok [{ signatureElementId := some 99, name := "Stale", index := none }]) 1032
      (by decide) (by decide) (by decide)).2.2.2.1,
    (browser_stale_result_taken_but_clobbered_no_refetch browserC1State
      (.ok [{ signatureElementId := some 99, name := "Stale", index := none }]) 1032
      (by decide) (by decide) (by decide)).2.2.2.2.1⟩
